import Mathlib

/-!
Shallow embedding of the adaptive-learning core of the repository
(backend/src/services/MasteryService.ts, ErrorPatternService,
PrerequisiteService, CompetenceFrameworkService, ReviewQueueRepo and the
CE1/CE2 curriculum helpers).

Modelling conventions:
* timestamps are integers counted in days (`now + 1` is "now + 1 day");
* JavaScript numbers are modelled with `ℚ` (quality, percentages,
  easiness factors) or `ℤ`/`ℕ` (counters, ids);
* the database is an explicit record of row lists; the `outcomes` list is
  kept newest-first, materialising the `ORDER BY attemptedAt DESC` used by
  every query that reads it;
* fallible SQL plumbing is modelled as total state passing (the source
  performs no validation and has no failure path of its own);
* unread payload fields (`donnees_chiffrees`, a `Record<string, any>`
  copied around but never inspected) are omitted.
-/

inductive MasteryLevel where
  | not_started
  | in_progress
  | mastered
deriving DecidableEq, Repr

/-- One `exerciseOutcomes` row (immutable attempt fact). -/
structure Outcome where
  studentId : Nat
  exerciseId : Nat
  competenceCode : String
  isCorrect : Bool
  hintsUsed : ℤ
  timeSpentSec : ℤ
  quality : ℚ
  errorTags : List String
  attemptedAt : ℤ
deriving DecidableEq, Repr

/-- One `studentProgress` row (mutable aggregate per learner-skill pair). -/
structure ProgressRow where
  id : Nat
  studentId : Nat
  exerciseId : Nat
  competenceCode : String
  progressPercent : ℚ
  masteryLevel : MasteryLevel
  totalAttempts : Nat
  successfulAttempts : Nat
  averageScore : ℚ
  totalTimeSpent : ℤ
  lastAttemptAt : ℤ
  masteredAt : Option ℤ
  needsReview : Bool
  createdAt : ℤ
  updatedAt : ℤ
deriving DecidableEq, Repr

/-- One `spacedRepetitionCards` row (SM-2 scheduling state). -/
structure ReviewCard where
  id : Nat
  studentId : Nat
  competenceCode : String
  easinessFactor : ℚ
  repetitionNumber : Nat
  intervalDays : ℤ
  lastReviewAt : ℤ
  nextReviewAt : ℤ
  lastQuality : ℚ
  createdAt : ℤ
  updatedAt : ℤ
deriving DecidableEq, Repr

/-- One `errorPatterns` row (per learner, skill and tag counter). -/
structure ErrorPatternRow where
  id : Nat
  studentId : Nat
  competenceCode : String
  tag : String
  occurrences : Nat
  lastSeenAt : ℤ
deriving DecidableEq, Repr

/-- One `competencePrerequisites` row (explicit prerequisite edge). -/
structure PrereqEdge where
  competenceCode : String
  prerequisiteCode : String
  weight : ℤ
deriving DecidableEq, Repr

/-- The relational store the services read and write. -/
structure DB where
  outcomes : List Outcome
  progress : List ProgressRow
  cards : List ReviewCard
  errorPatterns : List ErrorPatternRow
  competencePrerequisites : List PrereqEdge
  nextId : Nat
deriving DecidableEq, Repr

/-- The argument record of `MasteryService.updateMastery` (and of
`ErrorPatternService.recordOutcome`, which receives the same fields). -/
structure OutcomeArgs where
  studentId : Nat
  exerciseId : Nat
  competenceCode : String
  isCorrect : Bool
  hintsUsed : ℤ
  timeSpentSec : ℤ
  quality : ℚ
  errorTags : List String
deriving DecidableEq, Repr

/-- The `exerciseOutcomes` row inserted by `ErrorPatternService.recordOutcome`
(`attemptedAt` defaults to the insertion time). -/
def mkOutcome (args : OutcomeArgs) (now : ℤ) : Outcome :=
  { studentId := args.studentId
    exerciseId := args.exerciseId
    competenceCode := args.competenceCode
    isCorrect := args.isCorrect
    hintsUsed := args.hintsUsed
    timeSpentSec := args.timeSpentSec
    quality := args.quality
    errorTags := args.errorTags
    attemptedAt := now }

/-- Predicate used by every pair-scoped query on `exerciseOutcomes`. -/
def outcomeMatches (studentId : Nat) (competenceCode : String) (o : Outcome) : Bool :=
  o.studentId == studentId && o.competenceCode == competenceCode

/-- Predicate used by every pair-scoped query on `studentProgress`. -/
def progressMatches (studentId : Nat) (competenceCode : String) (r : ProgressRow) : Bool :=
  r.studentId == studentId && r.competenceCode == competenceCode

/-- Predicate used by every pair-scoped query on `spacedRepetitionCards`. -/
def cardMatches (studentId : Nat) (competenceCode : String) (c : ReviewCard) : Bool :=
  c.studentId == studentId && c.competenceCode == competenceCode

namespace ErrorPatternService

/-- The per-tag upsert inside `ErrorPatternService.recordOutcome`
(CompetenceFrameworkService.ts lines 540-572): the first matching
`errorPatterns` row gets `occurrences + 1` and a fresh `lastSeenAt`,
otherwise a new row with `occurrences = 1` is inserted. -/
def upsertErrorPattern (db : DB) (studentId : Nat) (competenceCode tag : String)
    (now : ℤ) : DB :=
  match db.errorPatterns.find? (fun p =>
      p.studentId == studentId && p.competenceCode == competenceCode && p.tag == tag) with
  | some existing =>
    { db with errorPatterns := db.errorPatterns.map (fun p =>
        if p.id == existing.id then
          { p with occurrences := existing.occurrences + 1, lastSeenAt := now }
        else p) }
  | none =>
    { db with
      errorPatterns := db.errorPatterns ++
        [{ id := db.nextId, studentId := studentId, competenceCode := competenceCode,
           tag := tag, occurrences := 1, lastSeenAt := now }]
      nextId := db.nextId + 1 }

/-- `ErrorPatternService.recordOutcome`: inserts the outcome row (no field
validation of any kind appears in the source), then upserts one
`errorPatterns` counter per tag.  The outcome is prepended because the
`outcomes` list is kept newest-first. -/
def recordOutcome (db : DB) (args : OutcomeArgs) (now : ℤ) : DB × Outcome :=
  let outcome := mkOutcome args now
  let db1 : DB := { db with outcomes := outcome :: db.outcomes }
  let db2 := args.errorTags.foldl
    (fun d tag => upsertErrorPattern d args.studentId args.competenceCode tag now) db1
  (db2, outcome)

end ErrorPatternService

/-- The aggregate block computed by `MasteryService.updateMastery`
(MasteryService.ts lines 51-67). -/
structure MasteryAggregates where
  totalAttempts : Nat
  successfulAttempts : Nat
  averageQuality : ℚ
  totalTimeSpent : ℤ
  masteryPercent : ℚ
  masteryLevel : MasteryLevel
  needsReview : Bool
deriving DecidableEq, Repr

/-- `Math.round(x * 100) / 100` (two-decimal rounding; `round` on `ℚ` is
`⌊x + 1/2⌋`, exactly `Math.round`). -/
def round2 (q : ℚ) : ℚ := ((round (q * 100) : ℤ) : ℚ) / 100

namespace MasteryService

/-- The classification chain of MasteryService.ts lines 61-64. -/
def masteryLevelOf (masteryPercent averageQuality : ℚ) : MasteryLevel :=
  if masteryPercent ≥ 90 ∧ averageQuality ≥ 3 then .mastered
  else if masteryPercent ≥ 50 then .in_progress
  else .not_started

/-- The review flag of MasteryService.ts line 67. -/
def needsReviewOf (masteryPercent averageQuality : ℚ) : Bool :=
  if masteryPercent < 80 ∨ averageQuality < 5/2 then true else false

/-- MasteryService.ts lines 51-67: aggregates over the loaded outcome
window, with `outcomes.length || 1` as attempt denominator, the hint
penalty `Math.min(10, hintsUsed * 2)` and the `[0,100]` clamp. -/
def computeAggregates (window : List Outcome) (hintsUsed : ℤ) : MasteryAggregates :=
  let totalAttempts : Nat := if window.length = 0 then 1 else window.length
  let successfulAttempts : Nat := (window.filter (fun o => o.isCorrect)).length
  let averageQuality : ℚ :=
    (window.foldl (fun sum o => sum + o.quality) 0) / (totalAttempts : ℚ)
  let totalTimeSpent : ℤ := window.foldl (fun sum o => sum + o.timeSpentSec) 0
  let rawPercent : ℚ := ((successfulAttempts : ℚ) / (totalAttempts : ℚ)) * 100
  let penalized : ℚ := rawPercent - min 10 ((hintsUsed : ℚ) * 2)
  let masteryPercent : ℚ := max 0 (min 100 penalized)
  let masteryLevel : MasteryLevel := masteryLevelOf masteryPercent averageQuality
  let needsReview : Bool := needsReviewOf masteryPercent averageQuality
  { totalAttempts := totalAttempts
    successfulAttempts := successfulAttempts
    averageQuality := averageQuality
    totalTimeSpent := totalTimeSpent
    masteryPercent := masteryPercent
    masteryLevel := masteryLevel
    needsReview := needsReview }

/-- The update-branch record of `updateMastery` (MasteryService.ts lines
81-96), applied to row `r` with `prev` the first existing row of the
pair: every aggregate field is overwritten, `masteredAt` follows
`prev.masteredAt || now` on the mastered branch and is otherwise carried
over. -/
def updatedProgressRow (prev r : ProgressRow) (exerciseId : Nat)
    (agg : MasteryAggregates) (now : ℤ) : ProgressRow :=
  { r with
    exerciseId := exerciseId
    progressPercent := agg.masteryPercent
    masteryLevel := agg.masteryLevel
    totalAttempts := agg.totalAttempts
    successfulAttempts := agg.successfulAttempts
    averageScore :=
      round2 (((agg.successfulAttempts : ℚ) / (agg.totalAttempts : ℚ)) * 100)
    totalTimeSpent := agg.totalTimeSpent
    lastAttemptAt := now
    masteredAt :=
      if agg.masteryLevel == .mastered then some (prev.masteredAt.getD now)
      else prev.masteredAt
    needsReview := agg.needsReview
    updatedAt := now }

/-- The insert-branch record of `updateMastery` (MasteryService.ts lines
98-113). -/
def insertedProgressRow (nextId studentId exerciseId : Nat) (competenceCode : String)
    (agg : MasteryAggregates) (now : ℤ) : ProgressRow :=
  { id := nextId
    studentId := studentId
    exerciseId := exerciseId
    competenceCode := competenceCode
    progressPercent := agg.masteryPercent
    masteryLevel := agg.masteryLevel
    totalAttempts := agg.totalAttempts
    successfulAttempts := agg.successfulAttempts
    averageScore :=
      round2 (((agg.successfulAttempts : ℚ) / (agg.totalAttempts : ℚ)) * 100)
    totalTimeSpent := agg.totalTimeSpent
    lastAttemptAt := now
    masteredAt := if agg.masteryLevel == .mastered then some now else none
    needsReview := agg.needsReview
    createdAt := now
    updatedAt := now }

/-- MasteryService.ts lines 69-114: read the existing `studentProgress`
rows for the pair; update the first one in place (by id) or insert a new
row. -/
def upsertProgress (rows : List ProgressRow) (nextId studentId exerciseId : Nat)
    (competenceCode : String) (agg : MasteryAggregates) (now : ℤ) :
    List ProgressRow × Nat :=
  let existing := rows.filter (progressMatches studentId competenceCode)
  match existing with
  | prev :: _ =>
    (rows.map (fun r =>
      if r.id == prev.id then updatedProgressRow prev r exerciseId agg now
      else r), nextId)
  | [] =>
    (rows ++ [insertedProgressRow nextId studentId exerciseId competenceCode agg now],
     nextId + 1)
end MasteryService

/-- Result record of the spaced-repetition step (`difficulty`, an output
field the spec leaves undefined and no claim reads, is omitted). -/
structure SMResult where
  easinessFactor : ℚ
  repetitionNumber : Nat
  interval : ℤ
  nextReviewDate : ℤ
deriving DecidableEq, Repr

namespace SuperMemoService

/-- Modelled from the spec: the source imports
`SuperMemoService.calculateNextReview` from `services/supermemo.service`,
a file absent from the sources; spec section 4.3 defines the update rule.
`newEF = EF + (0.1 - (5-q)(0.08 + (5-q)*0.02))` clamped to a floor of
`1.3`; `quality < 3` is a lapse (`repetitionNumber = 0`, interval 1 day),
otherwise the repetition number increments and the interval follows
`1, 6, round(previousInterval * newEF)`; `nextReviewAt = now + interval`. -/
def calculateNextReview (card : ReviewCard) (quality : ℚ) (now : ℤ) : SMResult :=
  let newEF : ℚ :=
    max (13/10)
      (card.easinessFactor + (1/10 - (5 - quality) * (2/25 + (5 - quality) * (1/50))))
  let repetitionNumber : Nat := if quality < 3 then 0 else card.repetitionNumber + 1
  let interval : ℤ :=
    if quality < 3 then 1
    else if repetitionNumber = 1 then 1
    else if repetitionNumber = 2 then 6
    else round ((card.intervalDays : ℚ) * newEF)
  { easinessFactor := newEF
    repetitionNumber := repetitionNumber
    interval := interval
    nextReviewDate := now + interval }

end SuperMemoService

namespace ReviewQueueRepo

/-- ReviewQueueRepo.ts lines 50-78: insert a fresh card with the SM-2
defaults (`easinessFactor = 2.5`, `repetitionNumber = 0`,
`intervalDays = 1`, `nextReviewAt = now + 1 day`) and return it. -/
def createCard (db : DB) (studentId : Nat) (competenceCode : String) (now : ℤ) :
    DB × ReviewCard :=
  let card : ReviewCard :=
    { id := db.nextId
      studentId := studentId
      competenceCode := competenceCode
      easinessFactor := 5/2
      repetitionNumber := 0
      intervalDays := 1
      lastReviewAt := now
      nextReviewAt := now + 1
      lastQuality := 0
      createdAt := now
      updatedAt := now }
  ({ db with cards := db.cards ++ [card], nextId := db.nextId + 1 }, card)

/-- ReviewQueueRepo.ts lines 20-48: overwrite the schedule fields of the
card with the given id. -/
def updateCardSchedule (db : DB) (cardId : Nat) (nextReviewAt intervalDays : ℤ)
    (repetitionNumber : Nat) (easinessFactor lastQuality : ℚ) (now : ℤ) : DB :=
  { db with cards := db.cards.map (fun c =>
      if c.id == cardId then
        { c with
          nextReviewAt := nextReviewAt
          intervalDays := intervalDays
          repetitionNumber := repetitionNumber
          easinessFactor := easinessFactor
          lastQuality := lastQuality
          lastReviewAt := now
          updatedAt := now }
      else c) }

/-- ReviewQueueRepo.ts lines 5-18: cards of the student strictly past due,
ascending by `nextReviewAt`, capped at `limit`. -/
def getDueCards (db : DB) (studentId : Nat) (now : ℤ) (limit : Nat) : List ReviewCard :=
  ((db.cards.filter (fun c => c.studentId == studentId && c.nextReviewAt < now)).insertionSort
    (fun a b => a.nextReviewAt ≤ b.nextReviewAt)).take limit

end ReviewQueueRepo

/-- One remediation action of `PrerequisiteService.getRemediation`. -/
structure RemediationAction where
  action : String
  prerequisiteCode : String
  weight : ℤ
  reason : String
deriving DecidableEq, Repr

namespace PrerequisiteService

/-- ce1-competences-2025.ts appendix lines 682-688: the explicit
`competencePrerequisites` edges of the skill, descending by weight. -/
def getPrerequisites (db : DB) (competenceCode : String) : List PrereqEdge :=
  (db.competencePrerequisites.filter
    (fun p => p.competenceCode == competenceCode)).insertionSort
    (fun a b => b.weight ≤ a.weight)

/-- ce1-competences-2025.ts appendix lines 690-705: the performance-view
blocking check — at least 3 incorrect answers among the 5 most recent
outcomes on the target skill itself. -/
def isBlocked (db : DB) (studentId : Nat) (competenceCode : String) : Bool :=
  let outcomes := (db.outcomes.filter (outcomeMatches studentId competenceCode)).take 5
  decide (3 ≤ (outcomes.filter (fun o => !o.isCorrect)).length)

/-- ce1-competences-2025.ts appendix lines 707-718: `null` when not
blocked, otherwise one action per prerequisite edge of the skill. -/
def getRemediation (db : DB) (studentId : Nat) (competenceCode : String) :
    Option (List RemediationAction) :=
  if isBlocked db studentId competenceCode then
    some ((getPrerequisites db competenceCode).map (fun p =>
      { action := "Review prerequisite"
        prerequisiteCode := p.prerequisiteCode
        weight := p.weight
        reason := "Student blocked on " ++ competenceCode ++ ", needs " ++ p.prerequisiteCode }))
  else none

end PrerequisiteService

/-- The value returned by `MasteryService.updateMastery`
(MasteryService.ts lines 146-161), flattened. -/
structure MasteryResult where
  masteryPercent : ℚ
  masteryLevel : MasteryLevel
  averageQuality : ℚ
  needsReview : Bool
  nextReview : ℤ
  intervalDays : ℤ
  repetitionNumber : Nat
  status : String
  remediation : Option (List RemediationAction)
deriving DecidableEq, Repr

namespace MasteryService

/-- `MasteryService.updateMastery` (MasteryService.ts lines 9-162): record
the outcome, recompute aggregates from the 20 most recent outcomes of the
pair (newest first), upsert the progress row, look up or lazily create the
review card, schedule it, and annotate the blocking state. -/
def updateMastery (db : DB) (args : OutcomeArgs) (now : ℤ) : DB × MasteryResult :=
  let db1 := (ErrorPatternService.recordOutcome db args now).1
  let window :=
    (db1.outcomes.filter (outcomeMatches args.studentId args.competenceCode)).take 20
  let agg := computeAggregates window args.hintsUsed
  let upserted := upsertProgress db1.progress db1.nextId args.studentId
    args.exerciseId args.competenceCode agg now
  let db2 : DB := { db1 with progress := upserted.1, nextId := upserted.2 }
  let foundCard := db2.cards.find? (cardMatches args.studentId args.competenceCode)
  let created : DB × ReviewCard :=
    match foundCard with
    | some c => (db2, c)
    | none => ReviewQueueRepo.createCard db2 args.studentId args.competenceCode now
  let db3 := created.1
  let card := created.2
  let sm := SuperMemoService.calculateNextReview card args.quality now
  let db4 := ReviewQueueRepo.updateCardSchedule db3 card.id sm.nextReviewDate
    sm.interval sm.repetitionNumber sm.easinessFactor args.quality now
  let blocked := PrerequisiteService.isBlocked db4 args.studentId args.competenceCode
  let remediation :=
    if blocked then PrerequisiteService.getRemediation db4 args.studentId args.competenceCode
    else none
  (db4,
   { masteryPercent := round2 agg.masteryPercent
     masteryLevel := agg.masteryLevel
     averageQuality := round2 agg.averageQuality
     needsReview := agg.needsReview
     nextReview := sm.nextReviewDate
     intervalDays := sm.interval
     repetitionNumber := sm.repetitionNumber
     status := if blocked then ("blocked") else ("progressing")
     remediation := remediation })

end MasteryService

/-! Curriculum reference data.  Object literals keyed by code are modelled
as association lists in source order (`Object.entries` / `Object.values`
enumerate string keys in insertion order). -/

/-- One CP competence record of `competenceReference`
(data/cp2025-competences, a reference-data file outside the given
sources; only the fields the services read are modelled, optional ones as
`Option` matching the `|| []` guards in the readers). -/
structure CpCompetence where
  titre : String
  description : String
  prerequis : Option (List String)
  periode : Option String
  objectifs : Option (List String)
deriving DecidableEq, Repr

/-- `CE1CompetenceData` (ce1-competences-2025.ts lines 1-11). -/
structure CE1CompetenceData where
  code : String
  titre : String
  description : String
  prerequis_cp : List String
  prerequis_details : List String
  saut_qualitatif : Option String
  nouveaute : Option String
  evaluation : String
deriving DecidableEq, Repr

/-- `CE1CompetenceFramework`: the two subject blocks, each a list of
(domain key, domain) pairs whose domains map codes to competences. -/
structure CE1CompetenceFramework where
  niveau : String
  annee_application : String
  francais : List (String × List (String × CE1CompetenceData))
  mathematiques : List (String × List (String × CE1CompetenceData))
deriving DecidableEq, Repr

/-- `CompetenceData` of ce2-competences-2026 (CE2 entries). -/
structure CompetenceData where
  code : String
  titre : String
  description : String
  prerequis_ce1 : List String
  prerequis_details : List String
  saut_qualitatif : Option String
  nouveaute : Option String
  evaluation : String
deriving DecidableEq, Repr

/-- `CompetenceFramework` of ce2-competences-2026. -/
structure CompetenceFramework where
  niveau : String
  annee_application : String
  francais : List (String × List (String × CompetenceData))
  mathematiques : List (String × List (String × CompetenceData))
deriving DecidableEq, Repr

/-- JavaScript truthiness of an optional string (`!!s`): absent and empty
strings are falsy. -/
def optStringTruthy : Option String → Bool
  | none => false
  | some s => s != ""

/-- `Array.prototype.forEach`: runs the callback for its side effects and
discards every value the callback returns.  The callbacks passed to it in
this codebase are pure, so the whole call is a no-op. -/
def tsForEach {α β : Type _} (xs : List α) (f : α → β) : Unit :=
  xs.foldl (fun u x => let _ := f x; u) ()

/-- `getCE1CompetenceByCode` (ce1-competences-2025.ts lines 621-633): both
domain scans use `forEach`, whose callbacks `return domain[code]` — a
value `forEach` discards — so control always falls through to the final
`return null`. -/
def getCE1CompetenceByCode (fw : CE1CompetenceFramework) (code : String) :
    Option CE1CompetenceData :=
  let _ := tsForEach (fw.francais.map Prod.snd) (fun domain => domain.lookup code)
  let _ := tsForEach (fw.mathematiques.map Prod.snd) (fun domain => domain.lookup code)
  none

/-- `getCE1PrerequisitesForCompetence` (lines 635-638). -/
def getCE1PrerequisitesForCompetence (fw : CE1CompetenceFramework) (code : String) :
    List String :=
  match getCE1CompetenceByCode fw code with
  | some c => c.prerequis_cp
  | none => []

/-- `hasCE1MajorQualitativeLeap` (lines 640-643): truthiness of
`competence?.saut_qualitatif`. -/
def hasCE1MajorQualitativeLeap (fw : CE1CompetenceFramework) (code : String) : Bool :=
  match getCE1CompetenceByCode fw code with
  | some c => optStringTruthy c.saut_qualitatif
  | none => false

/-- `getCE1CompetencesWithMajorLeaps` (lines 645-661): collects, via
`push`, every competence whose `saut_qualitatif` is truthy. -/
def getCE1CompetencesWithMajorLeaps (fw : CE1CompetenceFramework) :
    List CE1CompetenceData :=
  ((fw.francais.map Prod.snd).flatMap
    (fun domain => (domain.map Prod.snd).filter (fun c => optStringTruthy c.saut_qualitatif)))
  ++ ((fw.mathematiques.map Prod.snd).flatMap
    (fun domain => (domain.map Prod.snd).filter (fun c => optStringTruthy c.saut_qualitatif)))

namespace CE2

/-- CE2 `getCompetenceByCode` (ce2-competences-2026): spreads the domain
maps into one object and scans it with a genuine `for` loop, returning the
first hit. -/
def getCompetenceByCode (fw : CompetenceFramework) (code : String) :
    Option CompetenceData :=
  ((fw.francais ++ fw.mathematiques).map Prod.snd).findSome?
    (fun domain => domain.lookup code)

/-- CE2 `hasMajorQualitativeLeap`: truthiness of
`competence?.saut_qualitatif || competence?.nouveaute`. -/
def hasMajorQualitativeLeap (fw : CompetenceFramework) (code : String) : Bool :=
  match getCompetenceByCode fw code with
  | some c => optStringTruthy c.saut_qualitatif || optStringTruthy c.nouveaute
  | none => false

/-- CE2 `getCompetencesWithMajorLeaps`: collects the competences whose
code passes `hasMajorQualitativeLeap`. -/
def getCompetencesWithMajorLeaps (fw : CompetenceFramework) : List CompetenceData :=
  ((fw.francais.map Prod.snd).flatMap
    (fun domain => (domain.map Prod.snd).filter (fun c => hasMajorQualitativeLeap fw c.code)))
  ++ ((fw.mathematiques.map Prod.snd).flatMap
    (fun domain => (domain.map Prod.snd).filter (fun c => hasMajorQualitativeLeap fw c.code)))

end CE2

inductive Niveau where
  | CP
  | CE1
  | CE2
deriving DecidableEq, Repr

/-- `UnifiedCompetenceData` (CompetenceFrameworkService.ts lines 25-40),
optional fields as `Option`. -/
structure UnifiedCompetenceData where
  code : String
  titre : String
  description : String
  niveau : Niveau
  domaine : String
  sousDomaine : String
  prerequis : List String
  prerequis_details : Option (List String)
  saut_qualitatif : Option String
  nouveaute : Option String
  evaluation : String
  periode : Option String
  objectifs : Option (List String)
deriving DecidableEq, Repr

/-- The three static curriculum tables the service class closes over
(`cpCompetences`, `ce1Competences`, `ce2Competences`). -/
structure Curriculum where
  cp : List (String × CpCompetence)
  ce1 : CE1CompetenceFramework
  ce2 : CompetenceFramework
deriving DecidableEq, Repr

inductive Priority where
  | high
  | medium
  | low
deriving DecidableEq, Repr

inductive RecType where
  | review
  | new
  | remediation
  | prerequisite
deriving DecidableEq, Repr

/-- One recommendation entry (CompetenceFrameworkService.ts lines 62-67). -/
structure Recommendation where
  priority : Priority
  competenceCode : String
  reason : String
  type : RecType
deriving DecidableEq, Repr

/-- The `priorityOrder` table of the sort comparator
(CompetenceFrameworkService.ts line 389). -/
def priorityOrder : Priority → Nat
  | .high => 3
  | .medium => 2
  | .low => 1

namespace CompetenceFrameworkService

/-- `getDomainFromCode` (lines 485-493). -/
def getDomainFromCode (code : String) : String :=
  if code.startsWith ("CP.FR.") then ("francais")
  else if code.startsWith ("CP.MA.") then ("mathematiques")
  else if code.startsWith ("CE1.FR.") then ("francais")
  else if code.startsWith ("CE1.MA.") then ("mathematiques")
  else if code.startsWith ("CE2.FR.") then ("francais")
  else if code.startsWith ("CE2.MA.") then ("mathematiques")
  else ("unknown")

/-- `getSubDomainFromCode` (lines 495-501): third dot-separated part,
lowercased. -/
def getSubDomainFromCode (code : String) : String :=
  match code.splitOn (".") with
  | _ :: _ :: third :: _ => third.toLower
  | _ => ("unknown")

/-- `getCompetencesByLevel` (lines 86-183): flatten the level's curriculum
tables into `UnifiedCompetenceData`, in source iteration order. -/
def getCompetencesByLevel (cur : Curriculum) (niveau : Niveau) :
    List UnifiedCompetenceData :=
  match niveau with
  | .CP =>
    cur.cp.map (fun entry =>
      { code := entry.1
        titre := entry.2.titre
        description := entry.2.description
        niveau := .CP
        domaine := getDomainFromCode entry.1
        sousDomaine := getSubDomainFromCode entry.1
        prerequis := entry.2.prerequis.getD []
        prerequis_details := none
        saut_qualitatif := none
        nouveaute := none
        evaluation := "Évaluation continue et formative"
        periode := entry.2.periode
        objectifs := some (entry.2.objectifs.getD []) })
  | .CE1 =>
    (cur.ce1.francais.flatMap (fun domainEntry =>
      (domainEntry.2.map Prod.snd).map (fun c =>
        { code := c.code
          titre := c.titre
          description := c.description
          niveau := .CE1
          domaine := "francais"
          sousDomaine := domainEntry.1
          prerequis := c.prerequis_cp
          prerequis_details := some c.prerequis_details
          saut_qualitatif := c.saut_qualitatif
          nouveaute := c.nouveaute
          evaluation := c.evaluation
          periode := none
          objectifs := none })))
    ++ (cur.ce1.mathematiques.flatMap (fun domainEntry =>
      (domainEntry.2.map Prod.snd).map (fun c =>
        { code := c.code
          titre := c.titre
          description := c.description
          niveau := .CE1
          domaine := "mathematiques"
          sousDomaine := domainEntry.1
          prerequis := c.prerequis_cp
          prerequis_details := some c.prerequis_details
          saut_qualitatif := c.saut_qualitatif
          nouveaute := c.nouveaute
          evaluation := c.evaluation
          periode := none
          objectifs := none })))
  | .CE2 =>
    (cur.ce2.francais.flatMap (fun domainEntry =>
      (domainEntry.2.map Prod.snd).map (fun c =>
        { code := c.code
          titre := c.titre
          description := c.description
          niveau := .CE2
          domaine := "francais"
          sousDomaine := domainEntry.1
          prerequis := c.prerequis_ce1
          prerequis_details := some c.prerequis_details
          saut_qualitatif := c.saut_qualitatif
          nouveaute := c.nouveaute
          evaluation := c.evaluation
          periode := none
          objectifs := none })))
    ++ (cur.ce2.mathematiques.flatMap (fun domainEntry =>
      (domainEntry.2.map Prod.snd).map (fun c =>
        { code := c.code
          titre := c.titre
          description := c.description
          niveau := .CE2
          domaine := "mathematiques"
          sousDomaine := domainEntry.1
          prerequis := c.prerequis_ce1
          prerequis_details := some c.prerequis_details
          saut_qualitatif := c.saut_qualitatif
          nouveaute := c.nouveaute
          evaluation := c.evaluation
          periode := none
          objectifs := none })))

/-- The CP branch of `getCompetenceByCode` (lines 189-204). -/
def cpBranch (cur : Curriculum) (code : String) : Option UnifiedCompetenceData :=
  match cur.cp.lookup code with
  | some data =>
    some { code := code
           titre := data.titre
           description := data.description
           niveau := .CP
           domaine := getDomainFromCode code
           sousDomaine := getSubDomainFromCode code
           prerequis := data.prerequis.getD []
           prerequis_details := none
           saut_qualitatif := none
           nouveaute := none
           evaluation := "Évaluation continue et formative"
           periode := data.periode
           objectifs := some (data.objectifs.getD []) }
  | none => none

/-- The CE1 branch of `getCompetenceByCode` (lines 206-223), built on
`getCE1CompetenceByCode`. -/
def ce1Branch (cur : Curriculum) (code : String) : Option UnifiedCompetenceData :=
  match getCE1CompetenceByCode cur.ce1 code with
  | some c =>
    some { code := c.code
           titre := c.titre
           description := c.description
           niveau := .CE1
           domaine := getDomainFromCode code
           sousDomaine := getSubDomainFromCode code
           prerequis := c.prerequis_cp
           prerequis_details := some c.prerequis_details
           saut_qualitatif := c.saut_qualitatif
           nouveaute := c.nouveaute
           evaluation := c.evaluation
           periode := none
           objectifs := none }
  | none => none

/-- The CE2 branch of `getCompetenceByCode` (lines 225-242). -/
def ce2Branch (cur : Curriculum) (code : String) : Option UnifiedCompetenceData :=
  match CE2.getCompetenceByCode cur.ce2 code with
  | some c =>
    some { code := c.code
           titre := c.titre
           description := c.description
           niveau := .CE2
           domaine := getDomainFromCode code
           sousDomaine := getSubDomainFromCode code
           prerequis := c.prerequis_ce1
           prerequis_details := some c.prerequis_details
           saut_qualitatif := c.saut_qualitatif
           nouveaute := c.nouveaute
           evaluation := c.evaluation
           periode := none
           objectifs := none }
  | none => none

/-- `getCompetenceByCode` (lines 188-245): CP first, then CE1, then CE2. -/
def getCompetenceByCode (cur : Curriculum) (code : String) :
    Option UnifiedCompetenceData :=
  match cpBranch cur code with
  | some u => some u
  | none =>
    match ce1Branch cur code with
    | some u => some u
    | none => ce2Branch cur code

end CompetenceFrameworkService

/-- `[...new Set(xs)]`: removes duplicates, keeping the first occurrence
of each element (JavaScript `Set` iterates in insertion order). -/
def jsSetDedup : List String → List String → List String
  | _, [] => []
  | seen, x :: xs =>
    if seen.contains x then jsSetDedup seen xs
    else x :: jsSetDedup (x :: seen) xs

namespace CompetenceFrameworkService

/-- `getPrerequisites` (lines 250-266): database edges for the code, then
the framework prerequisites of the resolved competence, merged and
deduplicated. -/
def getPrerequisites (db : DB) (cur : Curriculum) (competenceCode : String) :
    List String :=
  let dbPrereqCodes :=
    (db.competencePrerequisites.filter (fun p => p.competenceCode == competenceCode)).map
      (fun p => p.prerequisiteCode)
  let frameworkPrereqs :=
    match getCompetenceByCode cur competenceCode with
    | some c => c.prerequis
    | none => []
  jsSetDedup [] (dbPrereqCodes ++ frameworkPrereqs)

/-- The per-prerequisite test of `isBlocked` (line 291): no progress row
for the pair, or its mastery level differs from `mastered`. -/
def prereqUnmet (db : DB) (studentId : Nat) (prereqCode : String) : Bool :=
  match db.progress.find? (progressMatches studentId prereqCode) with
  | none => true
  | some r => r.masteryLevel != .mastered

/-- Result record of `CompetenceFrameworkService.isBlocked`. -/
structure BlockedResult where
  isBlocked : Bool
  blockingPrerequisites : List String
  missingPrerequisites : List String
deriving DecidableEq, Repr

/-- `CompetenceFrameworkService.isBlocked` (lines 271-302): walk the
prerequisites; each unmet one is pushed to both output lists; blocked iff
that list is non-empty. -/
def isBlocked (db : DB) (cur : Curriculum) (studentId : Nat)
    (competenceCode : String) : BlockedResult :=
  let prerequisites := getPrerequisites db cur competenceCode
  let blocking := prerequisites.filter (fun p => prereqUnmet db studentId p)
  { isBlocked := !blocking.isEmpty
    blockingPrerequisites := blocking
    missingPrerequisites := blocking }

/-- `new Map(list).get(code)`: the last entry with the key wins. -/
def progressMapGet (rows : List ProgressRow) (code : String) : Option ProgressRow :=
  rows.reverse.find? (fun r => r.competenceCode == code)

/-- `getRecommendations` (lines 307-392): needs-review rows (high), level
skills without a progress row (medium when unblocked, low with the
missing-prerequisite reason when blocked), qualitative-leap skills in
progress (high), then sort by descending priority (the JS comparator
`priorityOrder[b] - priorityOrder[a]` over a stable `Array.sort`).  Of
each leap entry only its `code` is read, so the leap lists are projected
to codes. -/
def getRecommendations (db : DB) (cur : Curriculum) (studentId : Nat)
    (niveau : Niveau) : List Recommendation :=
  let competences := getCompetencesByLevel cur niveau
  let sp := db.progress.filter (fun r => r.studentId == studentId)
  let reviewRecs := (sp.filter (fun p => p.needsReview)).map (fun p =>
    { priority := .high
      competenceCode := p.competenceCode
      reason := "Besoin de révision - performance faible"
      type := .review })
  let newRecs := competences.filterMap (fun c =>
    match progressMapGet sp c.code with
    | some _ => none
    | none =>
      let blocked := isBlocked db cur studentId c.code
      if !blocked.isBlocked then
        some { priority := .medium
               competenceCode := c.code
               reason := "Nouvelle compétence disponible"
               type := .new }
      else
        some { priority := .low
               competenceCode := c.code
               reason := "Prérequis manquants: " ++
                 String.intercalate (", ") blocked.missingPrerequisites
               type := .prerequisite })
  let leaps : List String :=
    match niveau with
    | .CE1 => (getCE1CompetencesWithMajorLeaps cur.ce1).map (fun c => c.code)
    | .CE2 => (CE2.getCompetencesWithMajorLeaps cur.ce2).map (fun c => c.code)
    | .CP => []
  let leapRecs := leaps.filterMap (fun code =>
    match progressMapGet sp code with
    | some p =>
      if p.masteryLevel == .in_progress then
        some { priority := .high
               competenceCode := code
               reason := "Saut qualitatif majeur - priorité élevée"
               type := .remediation }
      else none
    | none => none)
  (reviewRecs ++ newRecs ++ leapRecs).insertionSort
    (fun a b => priorityOrder b.priority ≤ priorityOrder a.priority)

/-- `getCompetencesWithLeaps` (lines 472-483). -/
def getCompetencesWithLeaps (cur : Curriculum) (niveau : Niveau) :
    List UnifiedCompetenceData :=
  let competences := getCompetencesByLevel cur niveau
  match niveau with
  | .CE1 => competences.filter (fun c => hasCE1MajorQualitativeLeap cur.ce1 c.code)
  | .CE2 => competences.filter (fun c => CE2.hasMajorQualitativeLeap cur.ce2 c.code)
  | .CP => competences.filter (fun c => decide (0 < c.prerequis.length))

end CompetenceFrameworkService
/-- `CE1_COMPETENCES_2025` (ce1-competences-2025.ts lines 39-602),
entries verbatim in source order (the unread `donnees_chiffrees`
payloads omitted, see the module header). -/
def CE1_COMPETENCES_2025 : CE1CompetenceFramework :=
  { niveau := "CE1"
    annee_application := "2025-2026"
    francais := [
      ("oral", [
        ("CE1.FR.O1.1",
       { code := "CE1.FR.O1.1"
         titre := "Maintenir une attention orientée en fonction d\x27un but lors d\x27écoutes longues"
         description := "Développer la capacité d\x27écoute soutenue et orientée vers un objectif spécifique"
         prerequis_cp := ["CP.FR.O1.1", "CP.FR.O1.2"]
         prerequis_details := ["Écouter pour comprendre des consignes courtes", "Maintenir l\x27attention sur des récits courts"]
         saut_qualitatif := some ("Passage d\x27écoutes courtes à des écoutes longues et orientées")
         nouveaute := none
         evaluation := "Observation de l\x27attention lors d\x27écoutes de 10-15 minutes" }),
        ("CE1.FR.O1.2",
       { code := "CE1.FR.O1.2"
         titre := "Repérer et mémoriser des informations importantes dans un texte entendu"
         description := "Extraire et retenir les éléments clés d\x27un texte lu par l\x27adulte"
         prerequis_cp := ["CP.FR.C1.1", "CP.FR.C1.2"]
         prerequis_details := ["Compréhension de phrases à l\x27oral - 85,4% maîtrise", "Identifier les personnages et actions principales"]
         saut_qualitatif := some ("Passage de la compréhension de phrases à celle de textes complets")
         nouveaute := none
         evaluation := "Questionnaires de compréhension après écoute de textes" }),
        ("CE1.FR.O2.1",
       { code := "CE1.FR.O2.1"
         titre := "Organiser son discours pour expliquer une règle ou présenter un travail"
         description := "Structurer ses explications de manière logique et claire"
         prerequis_cp := ["CP.FR.O2.1", "CP.FR.V1.1"]
         prerequis_details := ["S\x27exprimer avec clarté", "Utiliser un vocabulaire approprié"]
         saut_qualitatif := some ("Passage d\x27expressions simples à des explications structurées")
         nouveaute := none
         evaluation := "Présentations orales d\x27explications ou de travaux" }),
        ("CE1.FR.O2.2",
       { code := "CE1.FR.O2.2"
         titre := "Réciter un texte mémorisé avec une expression adaptée"
         description := "Réciter des textes en respectant la ponctuation et l\x27intonation"
         prerequis_cp := ["CP.FR.O2.2", "CP.FR.L3.1"]
         prerequis_details := ["Réciter des comptines courtes", "Lire à voix haute avec intonation"]
         saut_qualitatif := some ("Passage de comptines à des textes plus longs avec expression")
         nouveaute := none
         evaluation := "Récitations avec expression et respect de la ponctuation" })]),
      ("lecture", [
        ("CE1.FR.L1.1",
       { code := "CE1.FR.L1.1"
         titre := "Identifier automatiquement les mots avec syllabes complexes"
         description := "Décoder automatiquement les mots contenant des syllabes complexes"
         prerequis_cp := ["CP.FR.L1.1", "CP.FR.L1.2", "CP.FR.L1.3"]
         prerequis_details := ["Discriminer les sons et analyser les constituants des mots", "Maîtriser les correspondances graphophonologiques", "Mémoriser les composantes du code alphabétique"]
         saut_qualitatif := some ("Automatisation du décodage des syllabes complexes")
         nouveaute := none
         evaluation := "Tests de décodage de mots avec syllabes complexes" }),
        ("CE1.FR.L1.2",
       { code := "CE1.FR.L1.2"
         titre := "Lire avec une fluence de 70 mots par minute"
         description := "Développer la vitesse de lecture tout en maintenant la compréhension"
         prerequis_cp := ["CP.FR.L1.4", "CP.FR.L1.5"]
         prerequis_details := ["Fluence de 50 mots par minute", "Mémoriser les mots fréquents et irréguliers"]
         saut_qualitatif := some ("Fluence 50 → 70 mots/minute")
         nouveaute := none
         evaluation := "Tests de fluence chronométrés" }),
        ("CE1.FR.L2.1",
       { code := "CE1.FR.L2.1"
         titre := "Comprendre un texte d\x27une vingtaine de lignes lu en autonomie"
         description := "Comprendre des textes plus longs lus de manière autonome"
         prerequis_cp := ["CP.FR.C2.1", "CP.FR.C2.2"]
         prerequis_details := ["Comprendre des phrases lues seul", "Comprendre des textes courts adaptés"]
         saut_qualitatif := some ("Passage de textes courts à des textes de 20 lignes")
         nouveaute := none
         evaluation := "Questionnaires de compréhension sur textes autonomes" }),
        ("CE1.FR.L2.2",
       { code := "CE1.FR.L2.2"
         titre := "Réaliser des inférences complexes à partir d\x27un texte"
         description := "Déduire des informations implicites dans un texte"
         prerequis_cp := ["CP.FR.C2.3", "CP.FR.C2.4"]
         prerequis_details := ["Réaliser des inférences simples", "Mobiliser ses expériences pour comprendre"]
         saut_qualitatif := some ("Passage d\x27inférences simples à des inférences complexes")
         nouveaute := none
         evaluation := "Tests d\x27inférences sur textes lus" }),
        ("CE1.FR.L3.1",
       { code := "CE1.FR.L3.1"
         titre := "Ranger les mots dans l\x27ordre alphabétique"
         description := "Maîtriser l\x27ordre alphabétique pour classer des mots"
         prerequis_cp := ["CP.FR.L1.6", "CP.FR.V2.1"]
         prerequis_details := ["Connaître le nom des lettres", "Connaître l\x27ordre alphabétique"]
         saut_qualitatif := none
         nouveaute := some ("Classement alphabétique de mots")
         evaluation := "Exercices de classement alphabétique" })]),
      ("ecriture", [
        ("CE1.FR.E1.1",
       { code := "CE1.FR.E1.1"
         titre := "Tracer toutes les majuscules cursives"
         description := "Maîtriser l\x27écriture des majuscules en cursive"
         prerequis_cp := ["CP.FR.E1.1", "CP.FR.E1.2"]
         prerequis_details := ["Maîtriser les minuscules cursives", "Contrôler les gestes de l\x27écriture"]
         saut_qualitatif := none
         nouveaute := some ("Introduction des majuscules cursives")
         evaluation := "Écriture de majuscules cursives sur réglure" }),
        ("CE1.FR.E1.2",
       { code := "CE1.FR.E1.2"
         titre := "Copier une dizaine de lignes sans erreur"
         description := "Copier des textes plus longs avec précision"
         prerequis_cp := ["CP.FR.E1.3", "CP.FR.E1.4"]
         prerequis_details := ["Copier des phrases courtes", "Utiliser des stratégies de copie"]
         saut_qualitatif := some ("Passage de phrases courtes à une dizaine de lignes")
         nouveaute := none
         evaluation := "Copie de textes de 10 lignes sans erreur" }),
        ("CE1.FR.E2.1",
       { code := "CE1.FR.E2.1"
         titre := "Rédiger des textes de plusieurs phrases en autonomie"
         description := "Écrire des textes courts de manière autonome"
         prerequis_cp := ["CP.FR.E2.1", "CP.FR.E2.2"]
         prerequis_details := ["Écrire des phrases simples", "Organiser ses idées"]
         saut_qualitatif := some ("Passage de phrases simples à des textes de plusieurs phrases")
         nouveaute := none
         evaluation := "Rédaction de textes courts autonomes" }),
        ("CE1.FR.E2.2",
       { code := "CE1.FR.E2.2"
         titre := "Utiliser des connecteurs temporels (d\x27abord, puis, ensuite, enfin)"
         description := "Structurer un texte avec des connecteurs temporels"
         prerequis_cp := ["CP.FR.E2.3", "CP.FR.G2.1"]
         prerequis_details := ["Utiliser \x27et\x27 pour relier les mots", "Comprendre l\x27ordre chronologique"]
         saut_qualitatif := none
         nouveaute := some ("Introduction des connecteurs temporels")
         evaluation := "Rédaction de textes avec connecteurs temporels" })]),
      ("vocabulaire", [
        ("CE1.FR.V1.1",
       { code := "CE1.FR.V1.1"
         titre := "Enrichir les corolles lexicales constituées au CP"
         description := "Étendre le vocabulaire thématique acquis au CP"
         prerequis_cp := ["CP.FR.V1.1", "CP.FR.V1.2"]
         prerequis_details := ["Constituer des corolles lexicales par thème", "Mobiliser le vocabulaire en contexte"]
         saut_qualitatif := some ("Extension des corolles lexicales existantes")
         nouveaute := none
         evaluation := "Tests de vocabulaire thématique" }),
        ("CE1.FR.V1.2",
       { code := "CE1.FR.V1.2"
         titre := "Trouver des synonymes, antonymes et mots de même famille"
         description := "Comprendre les relations lexicales entre les mots"
         prerequis_cp := ["CP.FR.V1.3", "CP.FR.V1.4"]
         prerequis_details := ["Comprendre les relations de sens", "Identifier les mots qui vont ensemble"]
         saut_qualitatif := none
         nouveaute := some ("Introduction des synonymes, antonymes et familles de mots")
         evaluation := "Exercices de relations lexicales" }),
        ("CE1.FR.V2.1",
       { code := "CE1.FR.V2.1"
         titre := "Consulter un dictionnaire et se repérer dans un article"
         description := "Utiliser un dictionnaire pour chercher des informations"
         prerequis_cp := ["CP.FR.V2.1", "CP.FR.L1.6"]
         prerequis_details := ["Connaître l\x27ordre alphabétique", "Connaître le nom des lettres"]
         saut_qualitatif := none
         nouveaute := some ("Utilisation autonome du dictionnaire")
         evaluation := "Recherche dans le dictionnaire" }),
        ("CE1.FR.V3.1",
       { code := "CE1.FR.V3.1"
         titre := "Mémoriser un corpus organisé de mots invariables"
         description := "Apprendre et mémoriser les mots invariables essentiels"
         prerequis_cp := ["CP.FR.V3.1", "CP.FR.G3.1"]
         prerequis_details := ["Mémoriser les premiers mots invariables", "Vigilance orthographique"]
         saut_qualitatif := some ("Extension du corpus de mots invariables")
         nouveaute := none
         evaluation := "Dictées de mots invariables" })]),
      ("grammaire", [
        ("CE1.FR.G1.1",
       { code := "CE1.FR.G1.1"
         titre := "Identifier le sujet et le verbe dans une phrase"
         description := "Reconnaître les éléments essentiels de la phrase"
         prerequis_cp := ["CP.FR.G1.1", "CP.FR.G1.2"]
         prerequis_details := ["Identifier la phrase", "Reconnaître les principales classes de mots"]
         saut_qualitatif := some ("Passage de l\x27identification de la phrase à celle du sujet et verbe")
         nouveaute := none
         evaluation := "Analyse grammaticale de phrases simples" }),
        ("CE1.FR.G1.2",
       { code := "CE1.FR.G1.2"
         titre := "Différencier les 3 types de phrases (déclaratives, interrogatives, impératives)"
         description := "Reconnaître et utiliser les différents types de phrases"
         prerequis_cp := ["CP.FR.G1.3", "CP.FR.G1.4"]
         prerequis_details := ["Distinguer phrase et non-phrase", "Reconnaître les signes de ponctuation"]
         saut_qualitatif := none
         nouveaute := some ("Classification des types de phrases")
         evaluation := "Identification et production de types de phrases" }),
        ("CE1.FR.G2.1",
       { code := "CE1.FR.G2.1"
         titre := "Réaliser des accords en genre et nombre dans le groupe nominal"
         description := "Accorder les déterminants et adjectifs avec le nom"
         prerequis_cp := ["CP.FR.G2.1", "CP.FR.G2.2"]
         prerequis_details := ["Comprendre la notion d\x27accord", "Identifier masculin/féminin et singulier/pluriel"]
         saut_qualitatif := some ("Passage de la compréhension à l\x27application des accords")
         nouveaute := none
         evaluation := "Exercices d\x27accord dans le groupe nominal" }),
        ("CE1.FR.G2.2",
       { code := "CE1.FR.G2.2"
         titre := "Conjuguer être, avoir et verbes du 1er groupe aux temps étudiés"
         description := "Maîtriser la conjugaison des verbes essentiels"
         prerequis_cp := ["CP.FR.G2.3", "CP.FR.G2.4"]
         prerequis_details := ["Identifier le verbe dans la phrase", "Connaître être et avoir au présent"]
         saut_qualitatif := some ("Extension de la conjugaison à plus de verbes et temps")
         nouveaute := none
         evaluation := "Conjugaison de verbes aux temps étudiés" }),
        ("CE1.FR.G2.3",
       { code := "CE1.FR.G2.3"
         titre := "Conjuguer 8 verbes irréguliers du 3e groupe"
         description := "Apprendre la conjugaison de verbes irréguliers fréquents"
         prerequis_cp := ["CP.FR.G2.4", "CP.FR.G2.5"]
         prerequis_details := ["Connaître être et avoir au présent", "Comprendre la notion de temps"]
         saut_qualitatif := none
         nouveaute := some ("Introduction des verbes irréguliers du 3e groupe")
         evaluation := "Conjugaison de verbes irréguliers" })])
    ],
    mathematiques := [
      ("nombres", [
        ("CE1.MA.N1.1",
       { code := "CE1.MA.N1.1"
         titre := "Maîtriser les nombres jusqu\x27à 1000"
         description := "Comprendre et utiliser les nombres jusqu\x27à 1000"
         prerequis_cp := ["CP.MA.N1.1", "CP.MA.N1.2"]
         prerequis_details := ["Nombres jusqu\x27à 59 en période 2", "Nombres jusqu\x27à 100 en période 3"]
         saut_qualitatif := some ("Nombres jusqu\x27à 100 → jusqu\x27à 1000")
         nouveaute := none
         evaluation := "Tests de numération jusqu\x27à 1000" }),
        ("CE1.MA.N1.2",
       { code := "CE1.MA.N1.2"
         titre := "Compter de 2 en 2, de 5 en 5, de 10 en 10"
         description := "Maîtriser les comptages par intervalles"
         prerequis_cp := ["CP.MA.N1.3", "CP.MA.N1.4"]
         prerequis_details := ["Compter jusqu\x27à 100", "Comprendre la dizaine"]
         saut_qualitatif := none
         nouveaute := some ("Comptages par intervalles réguliers")
         evaluation := "Tests de comptage par intervalles" }),
        ("CE1.MA.N2.1",
       { code := "CE1.MA.N2.1"
         titre := "Comprendre et utiliser les fractions unitaires (1/2, 1/3, 1/4)"
         description := "Introduire la notion de fraction simple"
         prerequis_cp := ["CP.MA.N2.1", "CP.MA.GM1.1"]
         prerequis_details := ["Comprendre les mots : moitié, demi, quart", "Utiliser la bande-unité"]
         saut_qualitatif := none
         nouveaute := some ("Introduction des fractions unitaires")
         evaluation := "Manipulation et utilisation de fractions simples" }),
        ("CE1.MA.N2.2",
       { code := "CE1.MA.N2.2"
         titre := "Additionner et soustraire des fractions de même dénominateur"
         description := "Effectuer des calculs avec des fractions simples"
         prerequis_cp := ["CP.MA.N2.1", "CP.MA.C1.1"]
         prerequis_details := ["Comprendre les mots : moitié, demi, quart", "Maîtriser l\x27addition simple"]
         saut_qualitatif := none
         nouveaute := some ("Calculs avec des fractions")
         evaluation := "Exercices de calculs fractionnaires" })]),
      ("calcul", [
        ("CE1.MA.C1.1",
       { code := "CE1.MA.C1.1"
         titre := "Mémoriser les tables d\x27addition"
         description := "Automatiser les résultats des additions jusqu\x27à 20"
         prerequis_cp := ["CP.MA.C1.1", "CP.MA.C1.2"]
         prerequis_details := ["Décomposer les nombres jusqu\x27à 10", "Addition dans les nombres jusqu\x27à 20"]
         saut_qualitatif := some ("Automatisation des tables d\x27addition")
         nouveaute := none
         evaluation := "Tests de rapidité sur les tables d\x27addition" }),
        ("CE1.MA.C1.2",
       { code := "CE1.MA.C1.2"
         titre := "Maîtriser l\x27algorithme posé de la soustraction avec retenue"
         description := "Effectuer des soustractions en colonnes avec retenue"
         prerequis_cp := ["CP.MA.C1.3", "CP.MA.C1.4"]
         prerequis_details := ["Comprendre la soustraction", "Soustraction sans retenue"]
         saut_qualitatif := none
         nouveaute := some ("Introduction de la retenue dans la soustraction")
         evaluation := "Soustractions posées avec retenue" }),
        ("CE1.MA.C2.1",
       { code := "CE1.MA.C2.1"
         titre := "Comprendre le sens de la multiplication et de la division"
         description := "Découvrir les opérations de multiplication et division"
         prerequis_cp := ["CP.MA.C2.1", "CP.MA.C2.2"]
         prerequis_details := ["Découvrir les 4 opérations", "Résoudre des problèmes simples"]
         saut_qualitatif := none
         nouveaute := some ("Introduction de la multiplication et division")
         evaluation := "Résolution de problèmes multiplicatifs et de partage" }),
        ("CE1.MA.C3.1",
       { code := "CE1.MA.C3.1"
         titre := "Développer la fluence en calcul mental"
         description := "Améliorer la rapidité et l\x27efficacité du calcul mental"
         prerequis_cp := ["CP.MA.C3.1", "CP.MA.C3.2"]
         prerequis_details := ["Calcul mental quotidien", "Automatisation des faits numériques"]
         saut_qualitatif := some ("Amélioration de la fluence en calcul mental")
         nouveaute := none
         evaluation := "Tests de calcul mental chronométrés" })]),
      ("problemes", [
        ("CE1.MA.P1.1",
       { code := "CE1.MA.P1.1"
         titre := "Résoudre au moins 10 problèmes par semaine"
         description := "S\x27entraîner régulièrement à la résolution de problèmes"
         prerequis_cp := ["CP.MA.P1.1", "CP.MA.P1.2"]
         prerequis_details := ["Résoudre des problèmes simples", "Comprendre l\x27énoncé d\x27un problème"]
         saut_qualitatif := some ("Augmentation du volume de problèmes résolus")
         nouveaute := none
         evaluation := "Suivi du nombre de problèmes résolus par semaine" }),
        ("CE1.MA.P1.2",
       { code := "CE1.MA.P1.2"
         titre := "Modéliser une situation par schémas ou dessins"
         description := "Représenter visuellement les situations mathématiques"
         prerequis_cp := ["CP.MA.P1.3", "CP.MA.P1.4"]
         prerequis_details := ["Représenter une situation", "Faire le lien entre manipulation et abstraction"]
         saut_qualitatif := some ("Passage de représentations simples à des modélisations")
         nouveaute := none
         evaluation := "Création de schémas pour résoudre des problèmes" }),
        ("CE1.MA.P2.1",
       { code := "CE1.MA.P2.1"
         titre := "Résoudre des problèmes multiplicatifs et de partage"
         description := "Traiter des problèmes impliquant multiplication et division"
         prerequis_cp := ["CP.MA.P2.1", "CP.MA.C2.1"]
         prerequis_details := ["Problèmes additifs et soustractifs", "Découvrir les 4 opérations"]
         saut_qualitatif := none
         nouveaute := some ("Introduction des problèmes multiplicatifs et de partage")
         evaluation := "Résolution de problèmes multiplicatifs" })]),
      ("grandeurs_mesures", [
        ("CE1.MA.GM1.1",
       { code := "CE1.MA.GM1.1"
         titre := "Utiliser les unités : mètre, centimètre, kilomètre"
         description := "Mesurer et comparer des longueurs avec différentes unités"
         prerequis_cp := ["CP.MA.GM1.1", "CP.MA.GM1.2"]
         prerequis_details := ["Manipulation concrète des longueurs", "Comparer des longueurs"]
         saut_qualitatif := none
         nouveaute := some ("Introduction des unités de mesure standardisées")
         evaluation := "Mesures de longueurs avec différentes unités" }),
        ("CE1.MA.GM1.2",
       { code := "CE1.MA.GM1.2"
         titre := "Utiliser les unités : gramme, kilogramme"
         description := "Mesurer et comparer des masses"
         prerequis_cp := ["CP.MA.GM1.3", "CP.MA.GM1.4"]
         prerequis_details := ["Manipulation concrète des masses", "Comparer des masses"]
         saut_qualitatif := none
         nouveaute := some ("Introduction des unités de masse")
         evaluation := "Mesures de masses avec gramme et kilogramme" }),
        ("CE1.MA.GM2.1",
       { code := "CE1.MA.GM2.1"
         titre := "Lire l\x27heure (heures, demi-heures, quarts d\x27heure)"
         description := "Lire et écrire l\x27heure sur une horloge analogique"
         prerequis_cp := ["CP.MA.GM2.1", "CP.MA.N2.1"]
         prerequis_details := ["Comprendre la notion de temps", "Comprendre les mots : moitié, demi, quart"]
         saut_qualitatif := none
         nouveaute := some ("Lecture de l\x27heure sur horloge analogique")
         evaluation := "Lecture et écriture de l\x27heure" }),
        ("CE1.MA.GM3.1",
       { code := "CE1.MA.GM3.1"
         titre := "Manipuler la monnaie et comprendre l\x27écriture à virgule"
         description := "Utiliser la monnaie et comprendre les nombres décimaux"
         prerequis_cp := ["CP.MA.GM3.1", "CP.MA.GM3.2"]
         prerequis_details := ["Connaître les pièces et billets", "Faire des équivalences monétaires"]
         saut_qualitatif := none
         nouveaute := some ("Introduction de l\x27écriture décimale")
         evaluation := "Manipulation de monnaie et écriture décimale" })]),
      ("espace_geometrie", [
        ("CE1.MA.EG1.1",
       { code := "CE1.MA.EG1.1"
         titre := "Reconnaître les figures planes : carré, rectangle, triangle, cercle"
         description := "Identifier et décrire les figures géométriques de base"
         prerequis_cp := ["CP.MA.EG1.1", "CP.MA.EG1.2"]
         prerequis_details := ["Premières représentations géométriques", "Distinguer les formes"]
         saut_qualitatif := some ("Passage de formes générales à des figures géométriques précises")
         nouveaute := none
         evaluation := "Reconnaissance et description de figures planes" }),
        ("CE1.MA.EG1.2",
       { code := "CE1.MA.EG1.2"
         titre := "Comprendre la notion d\x27angle droit"
         description := "Reconnaître et identifier les angles droits"
         prerequis_cp := ["CP.MA.EG1.3", "CP.MA.EG1.4"]
         prerequis_details := ["Repérer les alignements", "Utiliser la règle"]
         saut_qualitatif := none
         nouveaute := some ("Introduction de la notion d\x27angle droit")
         evaluation := "Identification d\x27angles droits dans l\x27environnement" }),
        ("CE1.MA.EG2.1",
       { code := "CE1.MA.EG2.1"
         titre := "Identifier les solides : cube, pavé droit, cylindre, boule"
         description := "Reconnaître et décrire les solides de base"
         prerequis_cp := ["CP.MA.EG2.1", "CP.MA.EG2.2"]
         prerequis_details := ["Assemblage de solides", "Manipulation d\x27objets 3D"]
         saut_qualitatif := none
         nouveaute := some ("Introduction des solides géométriques")
         evaluation := "Reconnaissance et description de solides" }),
        ("CE1.MA.EG3.1",
       { code := "CE1.MA.EG3.1"
         titre := "Reproduire des figures simples sur quadrillage"
         description := "Reproduire des figures géométriques sur un support quadrillé"
         prerequis_cp := ["CP.MA.EG3.1", "CP.MA.EG3.2"]
         prerequis_details := ["Se repérer sur quadrillage", "Déplacement sur quadrillage"]
         saut_qualitatif := some ("Passage du repérage à la reproduction de figures")
         nouveaute := none
         evaluation := "Reproduction de figures sur quadrillage" })]),
      ("organisation_donnees", [
        ("CE1.MA.OGD1.1",
       { code := "CE1.MA.OGD1.1"
         titre := "Lire et interpréter des tableaux et graphiques"
         description := "Extraire des informations à partir de représentations graphiques"
         prerequis_cp := ["CP.MA.OGD1.1", "CP.MA.OGD1.2"]
         prerequis_details := ["Organiser des données en tableau", "Construire des graphiques simples"]
         saut_qualitatif := some ("Passage de la construction à l\x27interprétation de graphiques")
         nouveaute := none
         evaluation := "Lecture et interprétation de tableaux et graphiques" }),
        ("CE1.MA.OGD1.2",
       { code := "CE1.MA.OGD1.2"
         titre := "Interpréter des diagrammes en barres"
         description := "Comprendre et analyser des diagrammes en barres"
         prerequis_cp := ["CP.MA.OGD1.3", "CP.MA.OGD1.4"]
         prerequis_details := ["Diagramme en barres : 1 cube = 1 individu", "Extraire des informations d\x27un graphique"]
         saut_qualitatif := some ("Passage de diagrammes simples à des diagrammes en barres")
         nouveaute := none
         evaluation := "Interprétation de diagrammes en barres" }),
        ("CE1.MA.OGD2.1",
       { code := "CE1.MA.OGD2.1"
         titre := "Utiliser les droites graduées"
         description := "Se repérer et placer des nombres sur une droite graduée"
         prerequis_cp := ["CP.MA.OGD2.1", "CP.MA.N1.2"]
         prerequis_details := ["Découvrir les droites graduées", "Placer un nombre sur une ligne graduée - 84,7% maîtrise"]
         saut_qualitatif := some ("Passage de la découverte à l\x27utilisation des droites graduées")
         nouveaute := none
         evaluation := "Utilisation de droites graduées pour placer des nombres" })])
    ] }


/-- The per-card effect of one scheduling pass (MasteryService.ts lines
132-139): `calculateNextReview` followed by `updateCardSchedule` on the
same card. -/
def scheduleStep (card : ReviewCard) (quality : ℚ) (now : ℤ) : ReviewCard :=
  let sm := SuperMemoService.calculateNextReview card quality now
  { card with
    nextReviewAt := sm.nextReviewDate
    intervalDays := sm.interval
    repetitionNumber := sm.repetitionNumber
    easinessFactor := sm.easinessFactor
    lastQuality := quality
    lastReviewAt := now
    updatedAt := now }

/-- The card record inserted by `ReviewQueueRepo.createCard`, abstracted
over the id the insert receives. -/
def freshCard (nid studentId : Nat) (competenceCode : String) (now : ℤ) : ReviewCard :=
  { id := nid, studentId := studentId, competenceCode := competenceCode,
    easinessFactor := 5/2, repetitionNumber := 0, intervalDays := 1,
    lastReviewAt := now, nextReviewAt := now + 1, lastQuality := 0,
    createdAt := now, updatedAt := now }

/-! Sample data used by concrete scenarios and witnesses. -/

/-- The empty store. -/
def emptyDB : DB :=
  { outcomes := []
    progress := []
    cards := []
    errorPatterns := []
    competencePrerequisites := []
    nextId := 0 }

/-- A CE1 framework with no competences (scenario curriculum). -/
def emptyCE1 : CE1CompetenceFramework :=
  { niveau := "CE1", annee_application := "2025-2026", francais := [], mathematiques := [] }

/-- A CE2 framework with no competences (scenario curriculum). -/
def emptyCE2 : CompetenceFramework :=
  { niveau := "CE2", annee_application := "2026-2027", francais := [], mathematiques := [] }

/-- A curriculum with no declared competences: all prerequisites then come
from the database edges alone. -/
def emptyCurriculum : Curriculum := { cp := [], ce1 := emptyCE1, ce2 := emptyCE2 }

/-- A scenario-A outcome: quality 4, no hints, on the pair (1, "X"). -/
def scenarioOutcome (isCorrect : Bool) : Outcome :=
  { studentId := 1, exerciseId := 1, competenceCode := "X", isCorrect := isCorrect,
    hintsUsed := 0, timeSpentSec := 0, quality := 4, errorTags := [], attemptedAt := 0 }

/-- Scenario A window: 20 outcomes, 18 correct, all quality 4. -/
def scenarioWindow : List Outcome :=
  List.replicate 18 (scenarioOutcome true) ++ List.replicate 2 (scenarioOutcome false)

/-- An outcome submission with every field malformed in the sense of the
spec: quality outside `[0,5]`, negative hints, negative time. -/
def invalidArgs : OutcomeArgs :=
  { studentId := 1, exerciseId := 1, competenceCode := "X", isCorrect := false,
    hintsUsed := -1, timeSpentSec := -5, quality := 7, errorTags := [] }

/-- A progress row already mastered at time 5 for the pair (1, "X"). -/
def stickyRow : ProgressRow :=
  { id := 0, studentId := 1, exerciseId := 1, competenceCode := "X",
    progressPercent := 100, masteryLevel := .mastered, totalAttempts := 1,
    successfulAttempts := 1, averageScore := 100, totalTimeSpent := 0,
    lastAttemptAt := 0, masteredAt := some 5, needsReview := false,
    createdAt := 0, updatedAt := 0 }

/-- A store whose only progress row is `stickyRow`. -/
def stickyDB : DB := { emptyDB with progress := [stickyRow] }

/-- A failed quality-0 attempt on the pair (1, "X"). -/
def failArgs : OutcomeArgs :=
  { studentId := 1, exerciseId := 2, competenceCode := "X", isCorrect := false,
    hintsUsed := 0, timeSpentSec := 1, quality := 0, errorTags := [] }

/-- The prerequisite edge X ← P. -/
def edgeXP : PrereqEdge := { competenceCode := "X", prerequisiteCode := "P", weight := 1 }

/-- A store that only knows that skill X has prerequisite P. -/
def prereqDB : DB := { emptyDB with competencePrerequisites := [edgeXP] }

/-- A fresh pair's first outcome with quality 2 (scenario B). -/
def freshArgs : OutcomeArgs :=
  { studentId := 1, exerciseId := 1, competenceCode := "X", isCorrect := false,
    hintsUsed := 0, timeSpentSec := 1, quality := 2, errorTags := [] }

/-- A failed outcome on the pair (1, "X") at time `k`. -/
def failOutcomeAt (k : ℤ) : Outcome :=
  { studentId := 1, exerciseId := 1, competenceCode := "X", isCorrect := false,
    hintsUsed := 0, timeSpentSec := 0, quality := 0, errorTags := [], attemptedAt := k }

/-- A store where learner 1 failed skill X three times and X has
prerequisite P: blocked in the performance-view sense. -/
def strugglingDB : DB :=
  { emptyDB with
    outcomes := [failOutcomeAt 3, failOutcomeAt 2, failOutcomeAt 1]
    competencePrerequisites := [edgeXP] }

/-- `stickyRow` flagged for review (used by the recommendation witness). -/
def reviewRow : ProgressRow := { stickyRow with needsReview := true }

/-- A store whose only progress row needs review. -/
def needsReviewDB : DB := { emptyDB with progress := [reviewRow] }

/-! General list lemmas used by the service proofs. -/

/-- `find?` is the head of `filter`. -/
theorem find?_eq_head?_filter {α : Type _} (p : α → Bool) :
    ∀ l : List α, l.find? p = (l.filter p).head?
  | [] => rfl
  | a :: l => by
    rw [List.find?_cons, List.filter_cons]
    cases h : p a
    · exact find?_eq_head?_filter p l
    · rfl

/-- `find?` commutes with a map that does not disturb the predicate. -/
theorem find?_map_of_pred {α : Type _} (f : α → α) (p : α → Bool)
    (h : ∀ a, p (f a) = p a) :
    ∀ l : List α, (l.map f).find? p = (l.find? p).map f
  | [] => rfl
  | a :: l => by
    rw [List.map_cons, List.find?_cons, List.find?_cons, h a]
    cases hp : p a
    · exact find?_map_of_pred f p h l
    · rfl

/-! Field-preservation lemmas: which store fields each operation leaves
untouched. -/

theorem upsertErrorPattern_outcomes (db : DB) (sid : Nat) (code tag : String) (now : ℤ) :
    (ErrorPatternService.upsertErrorPattern db sid code tag now).outcomes = db.outcomes := by
  unfold ErrorPatternService.upsertErrorPattern
  split <;> rfl

theorem upsertErrorPattern_progress (db : DB) (sid : Nat) (code tag : String) (now : ℤ) :
    (ErrorPatternService.upsertErrorPattern db sid code tag now).progress = db.progress := by
  unfold ErrorPatternService.upsertErrorPattern
  split <;> rfl

theorem upsertErrorPattern_cards (db : DB) (sid : Nat) (code tag : String) (now : ℤ) :
    (ErrorPatternService.upsertErrorPattern db sid code tag now).cards = db.cards := by
  unfold ErrorPatternService.upsertErrorPattern
  split <;> rfl

theorem foldlEP_outcomes (sid : Nat) (code : String) (now : ℤ) :
    ∀ (tags : List String) (db : DB),
      (tags.foldl (fun d tag => ErrorPatternService.upsertErrorPattern d sid code tag now)
        db).outcomes = db.outcomes
  | [], _ => rfl
  | t :: ts, db => by
    rw [List.foldl_cons, foldlEP_outcomes sid code now ts, upsertErrorPattern_outcomes]

theorem foldlEP_progress (sid : Nat) (code : String) (now : ℤ) :
    ∀ (tags : List String) (db : DB),
      (tags.foldl (fun d tag => ErrorPatternService.upsertErrorPattern d sid code tag now)
        db).progress = db.progress
  | [], _ => rfl
  | t :: ts, db => by
    rw [List.foldl_cons, foldlEP_progress sid code now ts, upsertErrorPattern_progress]

theorem foldlEP_cards (sid : Nat) (code : String) (now : ℤ) :
    ∀ (tags : List String) (db : DB),
      (tags.foldl (fun d tag => ErrorPatternService.upsertErrorPattern d sid code tag now)
        db).cards = db.cards
  | [], _ => rfl
  | t :: ts, db => by
    rw [List.foldl_cons, foldlEP_cards sid code now ts, upsertErrorPattern_cards]

theorem recordOutcome_fst_outcomes (db : DB) (args : OutcomeArgs) (now : ℤ) :
    ((ErrorPatternService.recordOutcome db args now).1).outcomes =
      mkOutcome args now :: db.outcomes := by
  unfold ErrorPatternService.recordOutcome
  rw [foldlEP_outcomes]

theorem recordOutcome_fst_progress (db : DB) (args : OutcomeArgs) (now : ℤ) :
    ((ErrorPatternService.recordOutcome db args now).1).progress = db.progress := by
  unfold ErrorPatternService.recordOutcome
  rw [foldlEP_progress]

theorem recordOutcome_fst_cards (db : DB) (args : OutcomeArgs) (now : ℤ) :
    ((ErrorPatternService.recordOutcome db args now).1).cards = db.cards := by
  unfold ErrorPatternService.recordOutcome
  rw [foldlEP_cards]

theorem updateCardSchedule_outcomes (db : DB) (cardId : Nat) (a b : ℤ) (r : Nat)
    (e q : ℚ) (now : ℤ) :
    (ReviewQueueRepo.updateCardSchedule db cardId a b r e q now).outcomes =
      db.outcomes := rfl

theorem updateCardSchedule_progress (db : DB) (cardId : Nat) (a b : ℤ) (r : Nat)
    (e q : ℚ) (now : ℤ) :
    (ReviewQueueRepo.updateCardSchedule db cardId a b r e q now).progress =
      db.progress := rfl

theorem createCard_fst_outcomes (db : DB) (sid : Nat) (code : String) (now : ℤ) :
    ((ReviewQueueRepo.createCard db sid code now).1).outcomes = db.outcomes := rfl

theorem createCard_fst_progress (db : DB) (sid : Nat) (code : String) (now : ℤ) :
    ((ReviewQueueRepo.createCard db sid code now).1).progress = db.progress := rfl

/-- After the whole pipeline, the outcome store is the recorded outcome in
front of the previous store. -/
theorem updateMastery_fst_outcomes (db : DB) (args : OutcomeArgs) (now : ℤ) :
    ((MasteryService.updateMastery db args now).1).outcomes =
      mkOutcome args now :: db.outcomes := by
  unfold MasteryService.updateMastery
  rw [updateCardSchedule_outcomes]
  split
  · exact recordOutcome_fst_outcomes db args now
  · rw [createCard_fst_outcomes]
    exact recordOutcome_fst_outcomes db args now

/-- After the whole pipeline, the progress store is exactly the upsert of
the recomputed aggregates over the pre-call progress store. -/
theorem updateMastery_fst_progress (db : DB) (args : OutcomeArgs) (now : ℤ) :
    ((MasteryService.updateMastery db args now).1).progress =
      (MasteryService.upsertProgress db.progress
        ((ErrorPatternService.recordOutcome db args now).1).nextId
        args.studentId args.exerciseId args.competenceCode
        (MasteryService.computeAggregates
          (((mkOutcome args now :: db.outcomes).filter
            (outcomeMatches args.studentId args.competenceCode)).take 20)
          args.hintsUsed) now).1 := by
  unfold MasteryService.updateMastery
  rw [updateCardSchedule_progress]
  split
  · rw [recordOutcome_fst_progress, recordOutcome_fst_outcomes]
  · rw [createCard_fst_progress]
    rw [recordOutcome_fst_progress, recordOutcome_fst_outcomes]

/-- The pair's progress row after an upsert: its aggregate fields are the
freshly computed ones, and `masteredAt` follows the update/insert rule
applied to the previously found row. -/
theorem upsertProgress_find (rows : List ProgressRow) (nextId sid eid : Nat)
    (code : String) (agg : MasteryAggregates) (now : ℤ) :
    ∃ row, ((MasteryService.upsertProgress rows nextId sid eid code agg now).1).find?
        (progressMatches sid code) = some row ∧
      row.totalAttempts = agg.totalAttempts ∧
      row.successfulAttempts = agg.successfulAttempts ∧
      row.progressPercent = agg.masteryPercent ∧
      row.masteryLevel = agg.masteryLevel ∧
      row.needsReview = agg.needsReview ∧
      row.masteredAt = (match rows.find? (progressMatches sid code) with
        | some prev =>
          if agg.masteryLevel == .mastered then some (prev.masteredAt.getD now)
          else prev.masteredAt
        | none => if agg.masteryLevel == .mastered then some now else none) := by
  unfold MasteryService.upsertProgress
  cases hf : rows.filter (progressMatches sid code) with
  | nil =>
    have hfind : rows.find? (progressMatches sid code) = none := by
      rw [find?_eq_head?_filter, hf]; rfl
    refine ⟨MasteryService.insertedProgressRow nextId sid eid code agg now,
      ?_, rfl, rfl, rfl, rfl, rfl, ?_⟩
    · show (rows ++ [MasteryService.insertedProgressRow nextId sid eid code agg now]).find?
        (progressMatches sid code) = _
      rw [List.find?_append, hfind]
      simp [progressMatches, MasteryService.insertedProgressRow]
    · rw [hfind]
      rfl
  | cons prev rest =>
    have hfind : rows.find? (progressMatches sid code) = some prev := by
      rw [find?_eq_head?_filter, hf]; rfl
    have hp : ∀ r : ProgressRow,
        progressMatches sid code
          (if r.id == prev.id then MasteryService.updatedProgressRow prev r eid agg now
           else r) = progressMatches sid code r := by
      intro r
      split <;> rfl
    refine ⟨MasteryService.updatedProgressRow prev prev eid agg now,
      ?_, rfl, rfl, rfl, rfl, rfl, ?_⟩
    · show (rows.map (fun r =>
        if r.id == prev.id then MasteryService.updatedProgressRow prev r eid agg now
        else r)).find? (progressMatches sid code) = _
      rw [find?_map_of_pred _ _ hp, hfind]
      simp
    · rw [hfind]
      rfl

theorem computeAggregates_totalAttempts (window : List Outcome) (hints : ℤ) :
    (MasteryService.computeAggregates window hints).totalAttempts =
      max 1 window.length := by
  show (if window.length = 0 then 1 else window.length) = max 1 window.length
  rcases Nat.eq_zero_or_pos window.length with h | h
  · simp [h]
  · rw [if_neg (by omega), Nat.max_eq_right h]

theorem computeAggregates_success (window : List Outcome) (hints : ℤ) :
    (MasteryService.computeAggregates window hints).successfulAttempts =
      (window.filter (fun o => o.isCorrect)).length := rfl

theorem computeAggregates_percent (window : List Outcome) (hints : ℤ) :
    (MasteryService.computeAggregates window hints).masteryPercent =
      max 0 (min 100
        (100 * (((window.filter (fun o => o.isCorrect)).length : ℚ) /
            ((max 1 window.length : ℕ) : ℚ))
          - min 10 (2 * (hints : ℚ)))) := by
  show max 0 (min 100
      ((((window.filter (fun o => o.isCorrect)).length : ℚ) /
          ((if window.length = 0 then 1 else window.length : ℕ) : ℚ)) * 100
        - min 10 ((hints : ℚ) * 2))) = _
  rw [show (if window.length = 0 then 1 else window.length) = max 1 window.length from
    computeAggregates_totalAttempts window hints]
  have e1 : (((window.filter (fun o => o.isCorrect)).length : ℚ) /
      ((max 1 window.length : ℕ) : ℚ)) * 100 =
      100 * (((window.filter (fun o => o.isCorrect)).length : ℚ) /
      ((max 1 window.length : ℕ) : ℚ)) := by ring
  have e2 : (hints : ℚ) * 2 = 2 * (hints : ℚ) := by ring
  rw [e1, e2]

theorem computeAggregates_avgQuality (window : List Outcome) (hints : ℤ) :
    (MasteryService.computeAggregates window hints).averageQuality =
      (window.foldl (fun sum o => sum + o.quality) 0) /
        ((max 1 window.length : ℕ) : ℚ) := by
  show (window.foldl (fun sum o => sum + o.quality) 0) /
      ((if window.length = 0 then 1 else window.length : ℕ) : ℚ) = _
  rw [show (if window.length = 0 then 1 else window.length) = max 1 window.length from
    computeAggregates_totalAttempts window hints]

theorem masteryLevelOf_mastered_iff (mp aq : ℚ) :
    MasteryService.masteryLevelOf mp aq = .mastered ↔ (90 ≤ mp ∧ 3 ≤ aq) := by
  unfold MasteryService.masteryLevelOf
  split_ifs with h1 h2 <;> simp_all

theorem masteryLevelOf_inProgress_iff (mp aq : ℚ) :
    MasteryService.masteryLevelOf mp aq = .in_progress ↔
      (¬(90 ≤ mp ∧ 3 ≤ aq) ∧ 50 ≤ mp) := by
  unfold MasteryService.masteryLevelOf
  split_ifs with h1 h2 <;> simp_all

theorem masteryLevelOf_notStarted_iff (mp aq : ℚ) :
    MasteryService.masteryLevelOf mp aq = .not_started ↔
      (¬(90 ≤ mp ∧ 3 ≤ aq) ∧ ¬(50 ≤ mp)) := by
  unfold MasteryService.masteryLevelOf
  split_ifs with h1 h2 <;> simp_all

theorem needsReviewOf_iff (mp aq : ℚ) :
    MasteryService.needsReviewOf mp aq = true ↔ (mp < 80 ∨ aq < 5/2) := by
  unfold MasteryService.needsReviewOf
  split_ifs with h <;> simp_all

theorem computeAggregates_masteryLevel (window : List Outcome) (hints : ℤ) :
    (MasteryService.computeAggregates window hints).masteryLevel =
      MasteryService.masteryLevelOf
        (MasteryService.computeAggregates window hints).masteryPercent
        (MasteryService.computeAggregates window hints).averageQuality := rfl

theorem computeAggregates_needsReview (window : List Outcome) (hints : ℤ) :
    (MasteryService.computeAggregates window hints).needsReview =
      MasteryService.needsReviewOf
        (MasteryService.computeAggregates window hints).masteryPercent
        (MasteryService.computeAggregates window hints).averageQuality := rfl

/-- C1: after every `updateMastery` call, the stored progress row for the
pair is recomputed from at most the 20 most recent outcomes of the pair
(the outcome store is newest first): `totalAttempts` is `max 1` of the
window count, `successfulAttempts` counts the correct outcomes of the
window, `progressPercent` is the clamped hint-penalised success ratio
with the hints of the attempt just recorded, and consequently
`progressPercent ∈ [0, 100]` and `successfulAttempts ≤ totalAttempts`. -/
theorem updateMastery_window_aggregates (db : DB) (args : OutcomeArgs) (now : ℤ) :
    ∃ row,
      ((MasteryService.updateMastery db args now).1).progress.find?
        (progressMatches args.studentId args.competenceCode) = some row ∧
      row.totalAttempts =
        max 1 ((((MasteryService.updateMastery db args now).1).outcomes.filter
          (outcomeMatches args.studentId args.competenceCode)).take 20).length ∧
      row.successfulAttempts =
        ((((((MasteryService.updateMastery db args now).1).outcomes.filter
          (outcomeMatches args.studentId args.competenceCode)).take 20)).filter
          (fun o => o.isCorrect)).length ∧
      row.progressPercent =
        max 0 (min 100 (100 * (row.successfulAttempts : ℚ) / (row.totalAttempts : ℚ)
          - min 10 (2 * (args.hintsUsed : ℚ)))) ∧
      0 ≤ row.progressPercent ∧ row.progressPercent ≤ 100 ∧
      row.successfulAttempts ≤ row.totalAttempts := by
  obtain ⟨row, hfind, h1, h2, h3, h4, h5, h6⟩ :=
    upsertProgress_find db.progress
      ((ErrorPatternService.recordOutcome db args now).1).nextId
      args.studentId args.exerciseId args.competenceCode
      (MasteryService.computeAggregates
        (((mkOutcome args now :: db.outcomes).filter
          (outcomeMatches args.studentId args.competenceCode)).take 20)
        args.hintsUsed) now
  rw [← updateMastery_fst_progress] at hfind
  refine ⟨row, hfind, ?_, ?_, ?_, ?_, ?_, ?_⟩
  · rw [updateMastery_fst_outcomes, h1, computeAggregates_totalAttempts]
  · rw [updateMastery_fst_outcomes, h2, computeAggregates_success]
  · rw [h3, h2, h1, computeAggregates_percent, computeAggregates_success,
      computeAggregates_totalAttempts, mul_div_assoc]
  · rw [h3]
    exact le_max_left 0 _
  · rw [h3, computeAggregates_percent]
    exact max_le (by norm_num) (min_le_left _ _)
  · rw [h1, h2, computeAggregates_totalAttempts, computeAggregates_success]
    exact le_trans (List.length_filter_le _ _) (le_max_right 1 _)

/-- C2: after every `updateMastery` call the stored `masteryLevel` is
`mastered` iff `masteryPercent ≥ 90` and the window's average quality is
`≥ 3`, otherwise `in_progress` iff `masteryPercent ≥ 50`, otherwise
`not_started`; `needsReview` is true iff `masteryPercent < 80` or the
average quality is `< 2.5`; and the scenario-A window (20 outcomes, 18
correct, quality 4, no hints) yields `masteryPercent = 90`,
`averageQuality = 4`, level `mastered` and `needsReview = false`. -/
theorem updateMastery_classification (db : DB) (args : OutcomeArgs) (now : ℤ) :
    (∃ row,
      ((MasteryService.updateMastery db args now).1).progress.find?
        (progressMatches args.studentId args.competenceCode) = some row ∧
      (row.masteryLevel = .mastered ↔
        (90 ≤ row.progressPercent ∧ 3 ≤
          ((((((MasteryService.updateMastery db args now).1).outcomes.filter
            (outcomeMatches args.studentId args.competenceCode)).take 20)).foldl
              (fun sum o => sum + o.quality) 0) /
            ((max 1 ((((MasteryService.updateMastery db args now).1).outcomes.filter
              (outcomeMatches args.studentId args.competenceCode)).take 20).length : ℕ) : ℚ))) ∧
      (row.masteryLevel = .in_progress ↔
        (¬(90 ≤ row.progressPercent ∧ 3 ≤
          ((((((MasteryService.updateMastery db args now).1).outcomes.filter
            (outcomeMatches args.studentId args.competenceCode)).take 20)).foldl
              (fun sum o => sum + o.quality) 0) /
            ((max 1 ((((MasteryService.updateMastery db args now).1).outcomes.filter
              (outcomeMatches args.studentId args.competenceCode)).take 20).length : ℕ) : ℚ)) ∧
         50 ≤ row.progressPercent)) ∧
      (row.masteryLevel = .not_started ↔
        (¬(90 ≤ row.progressPercent ∧ 3 ≤
          ((((((MasteryService.updateMastery db args now).1).outcomes.filter
            (outcomeMatches args.studentId args.competenceCode)).take 20)).foldl
              (fun sum o => sum + o.quality) 0) /
            ((max 1 ((((MasteryService.updateMastery db args now).1).outcomes.filter
              (outcomeMatches args.studentId args.competenceCode)).take 20).length : ℕ) : ℚ)) ∧
         ¬(50 ≤ row.progressPercent))) ∧
      (row.needsReview = true ↔
        (row.progressPercent < 80 ∨
          ((((((MasteryService.updateMastery db args now).1).outcomes.filter
            (outcomeMatches args.studentId args.competenceCode)).take 20)).foldl
              (fun sum o => sum + o.quality) 0) /
            ((max 1 ((((MasteryService.updateMastery db args now).1).outcomes.filter
              (outcomeMatches args.studentId args.competenceCode)).take 20).length : ℕ) : ℚ)
            < 5/2))) ∧
    (MasteryService.computeAggregates scenarioWindow 0).masteryPercent = 90 ∧
    (MasteryService.computeAggregates scenarioWindow 0).averageQuality = 4 ∧
    (MasteryService.computeAggregates scenarioWindow 0).masteryLevel = .mastered ∧
    (MasteryService.computeAggregates scenarioWindow 0).needsReview = false := by
  constructor
  · obtain ⟨row, hfind, h1, h2, h3, h4, h5, h6⟩ :=
      upsertProgress_find db.progress
        ((ErrorPatternService.recordOutcome db args now).1).nextId
        args.studentId args.exerciseId args.competenceCode
        (MasteryService.computeAggregates
          (((mkOutcome args now :: db.outcomes).filter
            (outcomeMatches args.studentId args.competenceCode)).take 20)
          args.hintsUsed) now
    rw [← updateMastery_fst_progress] at hfind
    refine ⟨row, hfind, ?_, ?_, ?_, ?_⟩
    · rw [updateMastery_fst_outcomes, h4, computeAggregates_masteryLevel, h3,
        ← computeAggregates_avgQuality]
      exact masteryLevelOf_mastered_iff _ _
    · rw [updateMastery_fst_outcomes, h4, computeAggregates_masteryLevel, h3,
        ← computeAggregates_avgQuality]
      exact masteryLevelOf_inProgress_iff _ _
    · rw [updateMastery_fst_outcomes, h4, computeAggregates_masteryLevel, h3,
        ← computeAggregates_avgQuality]
      exact masteryLevelOf_notStarted_iff _ _
    · rw [updateMastery_fst_outcomes, h5, computeAggregates_needsReview, h3,
        ← computeAggregates_avgQuality]
      exact needsReviewOf_iff _ _
  · norm_num [MasteryService.computeAggregates, scenarioWindow, scenarioOutcome,
      List.replicate, List.filter, List.foldl, MasteryService.masteryLevelOf,
      MasteryService.needsReviewOf]

/-- C4: `masteredAt` is sticky — whenever the pair's progress row already
carries `masteredAt = some t`, the row after any `updateMastery` call
still carries `some t`; and on the first transition into `mastered`
(previous row absent or with `masteredAt = none`) it is set to the call
time. -/
theorem updateMastery_masteredAt_sticky (db : DB) (args : OutcomeArgs) (now : ℤ) :
    (∀ row t,
      db.progress.find? (progressMatches args.studentId args.competenceCode) = some row →
      row.masteredAt = some t →
      ∃ row', ((MasteryService.updateMastery db args now).1).progress.find?
          (progressMatches args.studentId args.competenceCode) = some row' ∧
        row'.masteredAt = some t) ∧
    ((MasteryService.computeAggregates
        (((mkOutcome args now :: db.outcomes).filter
          (outcomeMatches args.studentId args.competenceCode)).take 20)
        args.hintsUsed).masteryLevel = .mastered →
      (∀ row,
        db.progress.find? (progressMatches args.studentId args.competenceCode) = some row →
        row.masteredAt = none) →
      ∃ row', ((MasteryService.updateMastery db args now).1).progress.find?
          (progressMatches args.studentId args.competenceCode) = some row' ∧
        row'.masteredAt = some now) := by
  obtain ⟨row', hfind, h1, h2, h3, h4, h5, h6⟩ :=
    upsertProgress_find db.progress
      ((ErrorPatternService.recordOutcome db args now).1).nextId
      args.studentId args.exerciseId args.competenceCode
      (MasteryService.computeAggregates
        (((mkOutcome args now :: db.outcomes).filter
          (outcomeMatches args.studentId args.competenceCode)).take 20)
        args.hintsUsed) now
  rw [← updateMastery_fst_progress] at hfind
  constructor
  · intro row t hfind0 hmt
    rw [hfind0] at h6
    dsimp only at h6
    rw [hmt] at h6
    refine ⟨row', hfind, ?_⟩
    split at h6 <;> simpa using h6
  · intro hlev hnone
    refine ⟨row', hfind, ?_⟩
    cases hf0 : db.progress.find? (progressMatches args.studentId args.competenceCode) with
    | none =>
      rw [hf0] at h6
      simpa [hlev] using h6
    | some row =>
      rw [hf0] at h6
      dsimp only at h6
      rw [hnone row hf0] at h6
      simpa [hlev] using h6

/-- Witness for C4: a pair already mastered at time 5 keeps
`masteredAt = some 5` after a failed attempt at time 10. -/
theorem updateMastery_masteredAt_sticky_witness :
    ∃ row', ((MasteryService.updateMastery stickyDB failArgs 10).1).progress.find?
        (progressMatches failArgs.studentId failArgs.competenceCode) = some row' ∧
      row'.masteredAt = some 5 :=
  (updateMastery_masteredAt_sticky stickyDB failArgs 10).1 stickyRow 5 rfl rfl

/-- C3 counterexample: recording an outcome whose fields are all
malformed (quality 7 ∉ [0,5], hintsUsed = -1, timeSpentSec = -5) does not
fail and does persist: the outcome row is appended to the store, refuting
"fails with ValidationError and nothing is persisted". -/
theorem recordOutcome_no_validation :
    (invalidArgs.quality > 5 ∧ invalidArgs.hintsUsed < 0 ∧ invalidArgs.timeSpentSec < 0) ∧
    ((ErrorPatternService.recordOutcome emptyDB invalidArgs 0).1).outcomes =
      [mkOutcome invalidArgs 0] := by
  refine ⟨⟨?_, ?_, ?_⟩, ?_⟩
  · norm_num [invalidArgs]
  · norm_num [invalidArgs]
  · norm_num [invalidArgs]
  · rfl

/-- C3 amended: `recordOutcome` performs no validation of the outcome
fields — for every submission, malformed or not, the outcome row is
appended (and the full per-attempt pipeline likewise records it); no
`ValidationError` path exists in the code. -/
theorem recordOutcome_always_persists (db : DB) (args : OutcomeArgs) (now : ℤ) :
    ((ErrorPatternService.recordOutcome db args now).1).outcomes =
      mkOutcome args now :: db.outcomes ∧
    ((MasteryService.updateMastery db args now).1).outcomes =
      mkOutcome args now :: db.outcomes :=
  ⟨recordOutcome_fst_outcomes db args now, updateMastery_fst_outcomes db args now⟩

theorem prereqUnmet_iff (db : DB) (sid : Nat) (p : String) :
    CompetenceFrameworkService.prereqUnmet db sid p = true ↔
      ¬∃ r, db.progress.find? (progressMatches sid p) = some r ∧
        r.masteryLevel = .mastered := by
  unfold CompetenceFrameworkService.prereqUnmet
  cases hf : db.progress.find? (progressMatches sid p) <;> simp [hf, bne]

/-- C5: `isBlocked` reports blocked iff some prerequisite of the skill
(database edges merged with curriculum-declared ones) has no progress row
for the learner or one whose level is not `mastered`; every such
prerequisite appears in `blockingPrerequisites`, and
`missingPrerequisites` is the same list.  In particular, with skill X
having prerequisite P and a learner with no progress rows, the result is
blocked with missing list `[P]`. -/
theorem isBlocked_characterisation (db : DB) (cur : Curriculum) (sid : Nat)
    (code : String) :
    ((CompetenceFrameworkService.isBlocked db cur sid code).isBlocked = true ↔
      ∃ p ∈ CompetenceFrameworkService.getPrerequisites db cur code,
        ¬∃ r, db.progress.find? (progressMatches sid p) = some r ∧
          r.masteryLevel = .mastered) ∧
    (∀ p, p ∈ (CompetenceFrameworkService.isBlocked db cur sid code).blockingPrerequisites ↔
      (p ∈ CompetenceFrameworkService.getPrerequisites db cur code ∧
        ¬∃ r, db.progress.find? (progressMatches sid p) = some r ∧
          r.masteryLevel = .mastered)) ∧
    (CompetenceFrameworkService.isBlocked db cur sid code).missingPrerequisites =
      (CompetenceFrameworkService.isBlocked db cur sid code).blockingPrerequisites ∧
    CompetenceFrameworkService.isBlocked prereqDB emptyCurriculum 1 "X" =
      { isBlocked := true, blockingPrerequisites := ["P"],
        missingPrerequisites := ["P"] } := by
  refine ⟨?_, ?_, rfl, by decide⟩
  · show (!(List.filter (fun p => CompetenceFrameworkService.prereqUnmet db sid p)
      (CompetenceFrameworkService.getPrerequisites db cur code)).isEmpty) = true ↔ _
    simp only [Bool.not_eq_true', List.isEmpty_eq_false_iff_exists_mem]
    constructor
    · rintro ⟨p, hp⟩
      rw [List.mem_filter] at hp
      exact ⟨p, hp.1, (prereqUnmet_iff db sid p).mp hp.2⟩
    · rintro ⟨p, hp, hu⟩
      exact ⟨p, List.mem_filter.mpr ⟨hp, (prereqUnmet_iff db sid p).mpr hu⟩⟩
  · intro p
    show p ∈ List.filter (fun p => CompetenceFrameworkService.prereqUnmet db sid p)
      (CompetenceFrameworkService.getPrerequisites db cur code) ↔ _
    rw [List.mem_filter, prereqUnmet_iff]

theorem calculateNextReview_easinessFactor (card : ReviewCard) (q : ℚ) (now : ℤ) :
    (SuperMemoService.calculateNextReview card q now).easinessFactor =
      max (13/10) (card.easinessFactor +
        (1/10 - (5 - q) * (2/25 + (5 - q) * (1/50)))) := rfl

theorem updateCardSchedule_mem (db : DB) (cardId : Nat) (next intv : ℤ) (rep : Nat)
    (ef lq : ℚ) (now : ℤ) :
    ∀ c ∈ (ReviewQueueRepo.updateCardSchedule db cardId next intv rep ef lq now).cards,
      c ∈ db.cards ∨ c.easinessFactor = ef := by
  intro c hc
  unfold ReviewQueueRepo.updateCardSchedule at hc
  dsimp only at hc
  rw [List.mem_map] at hc
  obtain ⟨x, hx, rfl⟩ := hc
  by_cases hid : (x.id == cardId) = true
  · rw [if_pos hid]
    exact Or.inr rfl
  · rw [if_neg hid]
    exact Or.inl hx

/-- C9: the easiness factor is clamped at 1.3 by every scheduling step
(the SM-2 update modelled from the spec), the whole per-attempt pipeline
preserves the floor across all stored cards, and iterating the scheduler
over any quality sequence (in particular arbitrarily many quality-0
lapses) keeps the stored factor at or above 1.3. -/
theorem easinessFactor_floor :
    (∀ (card : ReviewCard) (q : ℚ) (now : ℤ),
      (SuperMemoService.calculateNextReview card q now).easinessFactor =
        max (13/10) (card.easinessFactor +
          (1/10 - (5 - q) * (2/25 + (5 - q) * (1/50)))) ∧
      (13/10 : ℚ) ≤ (SuperMemoService.calculateNextReview card q now).easinessFactor) ∧
    (∀ (db : DB) (args : OutcomeArgs) (now : ℤ),
      (∀ c ∈ db.cards, (13/10 : ℚ) ≤ c.easinessFactor) →
      ∀ c ∈ ((MasteryService.updateMastery db args now).1).cards,
        (13/10 : ℚ) ≤ c.easinessFactor) ∧
    (∀ (qs : List ℚ) (card : ReviewCard) (now : ℤ),
      (13/10 : ℚ) ≤ card.easinessFactor →
      (13/10 : ℚ) ≤
        (qs.foldl (fun c q => scheduleStep c q now) card).easinessFactor) := by
  have hstep : ∀ (card : ReviewCard) (q : ℚ) (now : ℤ),
      (13/10 : ℚ) ≤ (SuperMemoService.calculateNextReview card q now).easinessFactor := by
    intro card q now
    rw [calculateNextReview_easinessFactor]
    exact le_max_left _ _
  refine ⟨fun card q now => ⟨rfl, hstep card q now⟩, ?_, ?_⟩
  · intro db args now hall c hc
    unfold MasteryService.updateMastery at hc
    dsimp only at hc
    obtain h | h := updateCardSchedule_mem _ _ _ _ _ _ _ _ c hc
    · split at h
      · dsimp only at h
        rw [recordOutcome_fst_cards] at h
        exact hall c h
      · unfold ReviewQueueRepo.createCard at h
        dsimp only at h
        rw [recordOutcome_fst_cards] at h
        rw [List.mem_append] at h
        obtain h | h := h
        · exact hall c h
        · rw [List.mem_singleton] at h
          subst h
          norm_num
    · rw [h, calculateNextReview_easinessFactor]
      exact le_max_left _ _
  · intro qs
    induction qs with
    | nil => intro card now h; exact h
    | cons q rest ih =>
      intro card now h
      rw [List.foldl_cons]
      exact ih _ now (hstep card q now)

/-- Witness for C9: three consecutive quality-0 lapses from a fresh card
keep the stored easiness factor at or above 1.3, and so does the pipeline
run on the empty store. -/
theorem easinessFactor_floor_witness :
    ((13:ℚ)/10 ≤ (([0, 0, 0] : List ℚ).foldl
      (fun c q => scheduleStep c q 0)
      { id := 0, studentId := 1, competenceCode := "X", easinessFactor := 5/2,
        repetitionNumber := 0, intervalDays := 1, lastReviewAt := 0,
        nextReviewAt := 1, lastQuality := 0, createdAt := 0,
        updatedAt := 0 }).easinessFactor) ∧
    ∀ c ∈ ((MasteryService.updateMastery emptyDB freshArgs 0).1).cards,
      (13/10 : ℚ) ≤ c.easinessFactor :=
  ⟨easinessFactor_floor.2.2 [0, 0, 0] _ 0 (by norm_num),
   easinessFactor_floor.2.1 emptyDB freshArgs 0 (by simp [emptyDB])⟩

/-- The single-card effect of create-then-schedule on a store whose pair
has no card yet. -/
theorem lazyCard_helper (cards : List ReviewCard) (sid : Nat) (code : String)
    (nid : Nat) (q : ℚ) (now : ℤ)
    (h : cards.filter (cardMatches sid code) = []) :
    ∃ card sm,
      sm = SuperMemoService.calculateNextReview
        { id := card.id, studentId := sid, competenceCode := code,
          easinessFactor := 5/2, repetitionNumber := 0, intervalDays := 1,
          lastReviewAt := now, nextReviewAt := now + 1, lastQuality := 0,
          createdAt := now, updatedAt := now } q now ∧
      ((cards ++ [freshCard nid sid code now]).map (fun c =>
        if c.id == nid then
          { c with
            nextReviewAt := (SuperMemoService.calculateNextReview
              (freshCard nid sid code now) q now).nextReviewDate
            intervalDays := (SuperMemoService.calculateNextReview
              (freshCard nid sid code now) q now).interval
            repetitionNumber := (SuperMemoService.calculateNextReview
              (freshCard nid sid code now) q now).repetitionNumber
            easinessFactor := (SuperMemoService.calculateNextReview
              (freshCard nid sid code now) q now).easinessFactor
            lastQuality := q
            lastReviewAt := now
            updatedAt := now }
        else c)).filter (cardMatches sid code) = [card] ∧
      card.repetitionNumber = sm.repetitionNumber ∧
      card.intervalDays = sm.interval ∧
      card.easinessFactor = sm.easinessFactor ∧
      card.nextReviewAt = sm.nextReviewDate ∧
      (q = 2 →
        card.repetitionNumber = 0 ∧ card.intervalDays = 1 ∧
        card.nextReviewAt = now + 1) := by
  refine ⟨{ freshCard nid sid code now with
      nextReviewAt := (SuperMemoService.calculateNextReview
        (freshCard nid sid code now) q now).nextReviewDate
      intervalDays := (SuperMemoService.calculateNextReview
        (freshCard nid sid code now) q now).interval
      repetitionNumber := (SuperMemoService.calculateNextReview
        (freshCard nid sid code now) q now).repetitionNumber
      easinessFactor := (SuperMemoService.calculateNextReview
        (freshCard nid sid code now) q now).easinessFactor
      lastQuality := q
      lastReviewAt := now
      updatedAt := now }, _, rfl, ?_, rfl, rfl, rfl, rfl, ?_⟩
  · rw [List.filter_map]
    rw [List.filter_congr (fun (c : ReviewCard) _ => show _ = cardMatches sid code c by
      simp only [Function.comp_apply]
      split <;> rfl)]
    rw [List.filter_append, h]
    simp [cardMatches, freshCard]
  · intro hq
    subst hq
    refine ⟨?_, ?_, ?_⟩ <;>
      norm_num [SuperMemoService.calculateNextReview, freshCard]

/-- C7: when the pipeline runs for a pair with no review card, exactly
one card is created (with defaults easinessFactor 2.5, repetition 0,
interval 1 day, next review tomorrow) and then scheduled; with quality 2
the stored card keeps repetition 0, interval 1 and next review at
now + 1 day. -/
theorem updateMastery_lazy_card_creation (db : DB) (args : OutcomeArgs) (now : ℤ)
    (h : db.cards.filter (cardMatches args.studentId args.competenceCode) = []) :
    ∃ card sm,
      sm = SuperMemoService.calculateNextReview
        { id := card.id, studentId := args.studentId,
          competenceCode := args.competenceCode, easinessFactor := 5/2,
          repetitionNumber := 0, intervalDays := 1, lastReviewAt := now,
          nextReviewAt := now + 1, lastQuality := 0, createdAt := now,
          updatedAt := now } args.quality now ∧
      ((MasteryService.updateMastery db args now).1).cards.filter
        (cardMatches args.studentId args.competenceCode) = [card] ∧
      card.repetitionNumber = sm.repetitionNumber ∧
      card.intervalDays = sm.interval ∧
      card.easinessFactor = sm.easinessFactor ∧
      card.nextReviewAt = sm.nextReviewDate ∧
      (args.quality = 2 →
        card.repetitionNumber = 0 ∧ card.intervalDays = 1 ∧
        card.nextReviewAt = now + 1) := by
  have hfind : db.cards.find? (cardMatches args.studentId args.competenceCode) = none := by
    rw [find?_eq_head?_filter, h]; rfl
  unfold MasteryService.updateMastery
  dsimp only
  rw [recordOutcome_fst_cards, hfind]
  unfold ReviewQueueRepo.createCard ReviewQueueRepo.updateCardSchedule
  dsimp only
  exact lazyCard_helper db.cards _ _ _ _ _ h

/-- Witness for C7: the very first outcome of a fresh pair with quality 2
leaves one card with repetition 0, interval 1 and next review at day 1. -/
theorem updateMastery_lazy_card_creation_witness :
    ∃ card, ((MasteryService.updateMastery emptyDB freshArgs 0).1).cards.filter
        (cardMatches freshArgs.studentId freshArgs.competenceCode) = [card] ∧
      card.repetitionNumber = 0 ∧ card.intervalDays = 1 ∧ card.nextReviewAt = 0 + 1 := by
  obtain ⟨card, sm, hsm, hfilter, h1, h2, h3, h4, himp⟩ :=
    updateMastery_lazy_card_creation emptyDB freshArgs 0 rfl
  obtain ⟨a, b, c⟩ := himp rfl
  exact ⟨card, hfilter, a, b, c⟩

/-- C8: `getRemediation` returns actions exactly when the learner is
blocked (in this service's sense); when blocked it returns one action per
prerequisite edge of the skill, each of the form
`{action := "Review prerequisite", prerequisiteCode, reason}`; when not
blocked it returns none. -/
theorem getRemediation_iff_blocked (db : DB) (sid : Nat) (code : String) :
    ((PrerequisiteService.getRemediation db sid code ≠ none) ↔
      PrerequisiteService.isBlocked db sid code = true) ∧
    (∀ acts, PrerequisiteService.getRemediation db sid code = some acts →
      acts.length = (PrerequisiteService.getPrerequisites db code).length ∧
      ∀ a ∈ acts, a.action = "Review prerequisite" ∧
        ∃ p ∈ PrerequisiteService.getPrerequisites db code,
          a.prerequisiteCode = p.prerequisiteCode ∧
          a.reason = "Student blocked on " ++ code ++ ", needs " ++ p.prerequisiteCode) ∧
    (PrerequisiteService.isBlocked db sid code = false →
      PrerequisiteService.getRemediation db sid code = none) := by
  unfold PrerequisiteService.getRemediation
  cases hb : PrerequisiteService.isBlocked db sid code
  · rw [if_neg (by simp)]
    refine ⟨by simp, ?_, fun _ => rfl⟩
    intro acts hacts
    simp at hacts
  · rw [if_pos rfl]
    refine ⟨by simp, ?_, ?_⟩
    · intro acts hacts
      rw [Option.some.injEq] at hacts
      subst hacts
      refine ⟨List.length_map _ _, ?_⟩
      intro a ha
      rw [List.mem_map] at ha
      obtain ⟨p, hp, rfl⟩ := ha
      exact ⟨rfl, p, hp, rfl, rfl⟩
    · intro hfalse
      simp at hfalse

/-- Witness for C8: a learner who failed skill X three times is blocked,
and remediation returns exactly one action, for prerequisite P, in the
stated shape. -/
theorem getRemediation_iff_blocked_witness :
    ([({ action := "Review prerequisite", prerequisiteCode := "P", weight := 1,
         reason := "Student blocked on X, needs P" } : RemediationAction)].length =
      (PrerequisiteService.getPrerequisites strugglingDB "X").length) ∧
    ∀ a ∈ [({ action := "Review prerequisite", prerequisiteCode := "P", weight := 1,
              reason := "Student blocked on X, needs P" } : RemediationAction)],
      a.action = "Review prerequisite" ∧
      ∃ p ∈ PrerequisiteService.getPrerequisites strugglingDB "X",
        a.prerequisiteCode = p.prerequisiteCode ∧
        a.reason = "Student blocked on " ++ "X" ++ ", needs " ++ p.prerequisiteCode :=
  (getRemediation_iff_blocked strugglingDB 1 "X").2.1 _ (by decide)

/-- C6: every needs-review progress row of the learner contributes a
high-priority review entry; every level skill without a progress row
contributes a medium "new" entry when unblocked and a low "prerequisite"
entry whose reason lists the missing prerequisites when blocked; and the
returned list is sorted descending by priority. -/
theorem getRecommendations_structure (db : DB) (cur : Curriculum) (sid : Nat)
    (niveau : Niveau) :
    (∀ p ∈ db.progress, p.studentId = sid → p.needsReview = true →
      ∃ r ∈ CompetenceFrameworkService.getRecommendations db cur sid niveau,
        r.priority = .high ∧ r.type = .review ∧ r.competenceCode = p.competenceCode) ∧
    (∀ c ∈ CompetenceFrameworkService.getCompetencesByLevel cur niveau,
      CompetenceFrameworkService.progressMapGet
        (db.progress.filter (fun r => r.studentId == sid)) c.code = none →
      (((CompetenceFrameworkService.isBlocked db cur sid c.code).isBlocked = false →
        ∃ r ∈ CompetenceFrameworkService.getRecommendations db cur sid niveau,
          r.priority = .medium ∧ r.type = .new ∧ r.competenceCode = c.code) ∧
      ((CompetenceFrameworkService.isBlocked db cur sid c.code).isBlocked = true →
        ∃ r ∈ CompetenceFrameworkService.getRecommendations db cur sid niveau,
          r.priority = .low ∧ r.type = .prerequisite ∧ r.competenceCode = c.code ∧
          r.reason = "Prérequis manquants: " ++ String.intercalate (", ")
            (CompetenceFrameworkService.isBlocked db cur sid c.code).missingPrerequisites))) ∧
    List.Pairwise (fun a b => priorityOrder b.priority ≤ priorityOrder a.priority)
      (CompetenceFrameworkService.getRecommendations db cur sid niveau) := by
  unfold CompetenceFrameworkService.getRecommendations
  dsimp only
  refine ⟨?_, ?_, ?_⟩
  · intro p hp hsid hnr
    refine ⟨{ priority := .high, competenceCode := p.competenceCode,
              reason := "Besoin de révision - performance faible", type := .review },
      ?_, rfl, rfl, rfl⟩
    rw [List.mem_insertionSort, List.mem_append, List.mem_append]
    refine Or.inl (Or.inl ?_)
    rw [List.mem_map]
    refine ⟨p, ?_, rfl⟩
    rw [List.mem_filter]
    refine ⟨?_, hnr⟩
    rw [List.mem_filter]
    exact ⟨hp, by simp [hsid]⟩
  · intro c hc hnone
    constructor
    · intro hnb
      refine ⟨{ priority := .medium, competenceCode := c.code,
                reason := "Nouvelle compétence disponible", type := .new },
        ?_, rfl, rfl, rfl⟩
      rw [List.mem_insertionSort, List.mem_append, List.mem_append]
      refine Or.inl (Or.inr ?_)
      rw [List.mem_filterMap]
      refine ⟨c, hc, ?_⟩
      rw [hnone]
      simp [hnb]
    · intro hb
      refine ⟨{ priority := .low, competenceCode := c.code,
                reason := "Prérequis manquants: " ++ String.intercalate (", ")
                  (CompetenceFrameworkService.isBlocked db cur sid c.code).missingPrerequisites,
                type := .prerequisite },
        ?_, rfl, rfl, rfl, rfl⟩
      rw [List.mem_insertionSort, List.mem_append, List.mem_append]
      refine Or.inl (Or.inr ?_)
      rw [List.mem_filterMap]
      refine ⟨c, hc, ?_⟩
      rw [hnone]
      simp [hb]
  · haveI ht : IsTotal Recommendation
        (fun a b => priorityOrder b.priority ≤ priorityOrder a.priority) :=
      ⟨fun a b => le_total _ _⟩
    haveI htr : IsTrans Recommendation
        (fun a b => priorityOrder b.priority ≤ priorityOrder a.priority) :=
      ⟨fun a b c hab hbc => le_trans hbc hab⟩
    exact List.sorted_insertionSort _ _

/-- Witness for C6: with one needs-review row for (1, "X"), the
recommendation list contains a high-priority review entry for X. -/
theorem getRecommendations_structure_witness :
    ∃ r ∈ CompetenceFrameworkService.getRecommendations needsReviewDB emptyCurriculum 1 .CE1,
      r.priority = .high ∧ r.type = .review ∧ r.competenceCode = reviewRow.competenceCode :=
  (getRecommendations_structure needsReviewDB emptyCurriculum 1 .CE1).1 reviewRow
    (by simp [needsReviewDB, emptyDB]) rfl rfl

/-- C10: `getCE1CompetenceByCode` returns none for every code (its two
domain scans are `forEach` calls whose callback return values are
discarded), so `hasCE1MajorQualitativeLeap` is false for every code, the
unified `getCompetenceByCode` degenerates to the CP branch followed by
the CE2 branch (the CE1 branch never fires), and
`getCompetencesWithLeaps` on CE1 is always empty — although the CE1
curriculum table does declare `saut_qualitatif` entries, as the working
collector `getCE1CompetencesWithMajorLeaps` shows on the embedded
`CE1_COMPETENCES_2025` data. -/
theorem ce1_lookup_always_none :
    (∀ (fw : CE1CompetenceFramework) (code : String),
      getCE1CompetenceByCode fw code = none) ∧
    (∀ (fw : CE1CompetenceFramework) (code : String),
      hasCE1MajorQualitativeLeap fw code = false) ∧
    (∀ (cur : Curriculum) (code : String),
      CompetenceFrameworkService.getCompetenceByCode cur code =
        (CompetenceFrameworkService.cpBranch cur code).orElse
          (fun _ => CompetenceFrameworkService.ce2Branch cur code)) ∧
    (∀ cur : Curriculum,
      CompetenceFrameworkService.getCompetencesWithLeaps cur .CE1 = []) ∧
    getCE1CompetencesWithMajorLeaps CE1_COMPETENCES_2025 ≠ [] := by
  refine ⟨fun fw code => rfl, fun fw code => rfl, ?_, ?_, ?_⟩
  · intro cur code
    unfold CompetenceFrameworkService.getCompetenceByCode
    cases hcp : CompetenceFrameworkService.cpBranch cur code <;> rfl
  · intro cur
    unfold CompetenceFrameworkService.getCompetencesWithLeaps
    dsimp only
    apply List.filter_eq_nil_iff.mpr
    intro c _
    simp [hasCE1MajorQualitativeLeap, getCE1CompetenceByCode]
  · decide
